import Mathlib

/-!
# Crash-detection engine of `esp32_crash_detection`

A shallow embedding of `src/src/crash_detector.cpp` with the data types of
`src/include/config.h`, followed by theorems about it.

Number model.
* `float` values are exact rationals (`ℚ`): rounding is not modelled.
* The result of `sqrt` is kept as a `Root`, the non-negative real given by its
  square.  The source only compares such a value with a threshold or divides it
  by a positive time step; both are exact on this representation
  (`Root.gt_iff_sqrt`, `Root.divPos_sqrt`).
* `int` is `Int`; `%` on `int` is C++ truncated remainder, `Int.tmod`.
* `unsigned long` is a 32-bit counter: a `Nat` with subtraction modulo `2^32`.
* `millis()` is an argument `now` of the operations that read the clock.
-/

namespace CrashDetection

/-! ## Numbers -/

/-- The non-negative real number `√radicand`, stored by its square. -/
structure Root where
  radicand : ℚ
deriving DecidableEq, Repr

/-- The float literal `0` returned where a `sqrt` result is expected. -/
def Root.zero : Root := ⟨0⟩

/-- Comparison `√r > t` of a root with a rational threshold. -/
def Root.gt (m : Root) (t : ℚ) : Bool :=
  decide (t < 0 ∨ t * t < m.radicand)

/-- Division `√r / q` of a root by a positive rational `q`. -/
def Root.divPos (m : Root) (q : ℚ) : Root :=
  ⟨m.radicand / (q * q)⟩

/-- Subtraction of two `unsigned long` (32-bit) values, wrapping modulo `2^32`. -/
def u32Sub (a b : Nat) : Nat :=
  (a + 4294967296 - b % 4294967296) % 4294967296

/-! ## `config.h` -/

/-- Crash detection configuration, `struct CrashDetectionConfig`. -/
structure CrashDetectionConfig where
  accelThreshold : ℚ := 3
  gyroThreshold : ℚ := 250
  impactDuration : ℚ := 500
  consecutiveReadings : Int := 3
  recoveryTime : ℚ := 5000
  proximityThreshold : ℚ := 30
  jerkThreshold : ℚ := 10
  severeJerkThreshold : ℚ := 20
  severeAccelThreshold : ℚ := 5
  severeGyroThreshold : ℚ := 400
deriving DecidableEq, Repr

/-- Value of `#define SENSOR_HISTORY_SIZE 10`. -/
def SENSOR_HISTORY_SIZE : Int := 10

/-- Severity `NO_CRASH = 0` of `enum CrashSeverity`. -/
def NO_CRASH : Int := 0
/-- Severity `MINOR_CRASH = 1` of `enum CrashSeverity`. -/
def MINOR_CRASH : Int := 1
/-- Severity `MODERATE_CRASH = 2` of `enum CrashSeverity`. -/
def MODERATE_CRASH : Int := 2
/-- Severity `SEVERE_CRASH = 3` of `enum CrashSeverity`. -/
def SEVERE_CRASH : Int := 3

/-- Arduino digital level `HIGH` (`0x1`), from `Arduino.h`. -/
def HIGH : Int := 1
/-- Arduino digital level `LOW` (`0x0`), from `Arduino.h`. -/
def LOW : Int := 0

/-- One sensor sample, `struct SensorData`. -/
structure SensorData where
  accelX : ℚ
  accelY : ℚ
  accelZ : ℚ
  gyroX : ℚ
  gyroY : ℚ
  gyroZ : ℚ
  distance : ℚ
  vibration : Int
  latitude : ℚ
  longitude : ℚ
  timestamp : Nat
deriving DecidableEq, Repr

/-- The sample `memset(&sensorHistory[i], 0, sizeof(SensorData))` leaves in a slot. -/
def SensorData.zero : SensorData :=
  { accelX := 0, accelY := 0, accelZ := 0, gyroX := 0, gyroY := 0, gyroZ := 0,
    distance := 0, vibration := 0, latitude := 0, longitude := 0, timestamp := 0 }

/-! ## `crash_detector.h`: the object state -/

/-- Private members of `class CrashDetector`.  `sensorHistory` is the heap array
(the empty list stands for `nullptr`); slot `i` is element `i` of the list. -/
structure CrashDetector where
  config : CrashDetectionConfig
  sensorHistory : List SensorData
  historySize : Int
  currentIndex : Int
  crashDetected : Bool
  crashDetectionTime : Nat
  currentSeverity : Int
deriving DecidableEq, Repr

/-- Read of `sensorHistory[idx]`. -/
def CrashDetector.slot (d : CrashDetector) (idx : Int) : SensorData :=
  d.sensorHistory.getD idx.toNat SensorData.zero

/-! ## `crash_detector.cpp` -/

/-- Constructor `CrashDetector::CrashDetector()`; `config` takes the default
member initialisers of `CrashDetectionConfig`. -/
def CrashDetector.new : CrashDetector :=
  { config := {}
    sensorHistory := []
    historySize := SENSOR_HISTORY_SIZE
    currentIndex := 0
    crashDetected := false
    crashDetectionTime := 0
    currentSeverity := NO_CRASH }

/-- Method `CrashDetector::begin`. -/
def begin (d : CrashDetector) (detectorConfig : CrashDetectionConfig) : CrashDetector :=
  { d with
    config := detectorConfig
    sensorHistory := List.replicate d.historySize.toNat SensorData.zero
    currentIndex := 0
    crashDetected := false
    crashDetectionTime := 0
    currentSeverity := NO_CRASH }

/-- Method `CrashDetector::calculateMagnitude`: `sqrt(x*x + y*y + z*z)`. -/
def calculateMagnitude (x y z : ℚ) : Root :=
  ⟨x * x + y * y + z * z⟩

/-- Method `CrashDetector::calculateJerk`. -/
def calculateJerk (current previous : SensorData) : Root :=
  let deltaAccelX := current.accelX - previous.accelX
  let deltaAccelY := current.accelY - previous.accelY
  let deltaAccelZ := current.accelZ - previous.accelZ
  let deltaTime : ℚ := (u32Sub current.timestamp previous.timestamp : ℚ) / 1000
  if deltaTime ≤ 0 then Root.zero
  else (calculateMagnitude deltaAccelX deltaAccelY deltaAccelZ).divPos deltaTime

/-- The `for` loop of `calculateConsecutiveHighReadings`: the first argument is
the number of iterations still to run, `i` the loop variable and
`consecutiveCount` the running count. -/
def consecutiveLoop (d : CrashDetector) : Nat → Int → Int → Int
  | 0, _, consecutiveCount => consecutiveCount
  | n + 1, i, consecutiveCount =>
    let idx := (d.currentIndex - i - 1 + d.historySize).tmod d.historySize
    if idx < 0 then consecutiveCount
    else
      let magnitude := calculateMagnitude (d.slot idx).accelX (d.slot idx).accelY
        (d.slot idx).accelZ
      if magnitude.gt (d.config.accelThreshold * (7 / 10)) then
        consecutiveLoop d n (i + 1) (consecutiveCount + 1)
      else consecutiveCount

/-- Method `CrashDetector::calculateConsecutiveHighReadings`. -/
def calculateConsecutiveHighReadings (d : CrashDetector) : Int :=
  let maxConsecutive := min d.config.consecutiveReadings d.historySize
  consecutiveLoop d maxConsecutive.toNat 0 0

/-- Method `CrashDetector::calculateCrashScore`. -/
def calculateCrashScore (d : CrashDetector) (currentReading : SensorData) : Int :=
  let crashScore : Int := 0
  -- Factor 1: high acceleration
  let accelMagnitude := calculateMagnitude currentReading.accelX currentReading.accelY
    currentReading.accelZ
  let crashScore :=
    if accelMagnitude.gt d.config.accelThreshold then
      crashScore + (if accelMagnitude.gt d.config.severeAccelThreshold then 3 else 2)
    else crashScore
  -- Factor 2: high rotation
  let gyroMagnitude := calculateMagnitude currentReading.gyroX currentReading.gyroY
    currentReading.gyroZ
  let crashScore :=
    if gyroMagnitude.gt d.config.gyroThreshold then
      crashScore + (if gyroMagnitude.gt d.config.severeGyroThreshold then 3 else 2)
    else crashScore
  -- Factor 3: high jerk
  let crashScore :=
    if d.currentIndex > 0 then
      let prevIndex := (d.currentIndex - 1 + d.historySize).tmod d.historySize
      let jerk := calculateJerk currentReading (d.slot prevIndex)
      if jerk.gt d.config.jerkThreshold then
        crashScore + (if jerk.gt d.config.severeJerkThreshold then 3 else 2)
      else crashScore
    else crashScore
  -- Factor 4: vibration sensor triggered
  let crashScore := if currentReading.vibration = HIGH then crashScore + 2 else crashScore
  -- Factor 5: proximity sensor
  let crashScore :=
    if currentReading.distance < d.config.proximityThreshold ∧ currentReading.distance > 0 then
      crashScore + 1
    else crashScore
  -- Factor 6: consecutive high readings
  let consecutiveHighReadings := calculateConsecutiveHighReadings d
  let crashScore :=
    if consecutiveHighReadings ≥ d.config.consecutiveReadings then crashScore + 2
    else crashScore
  crashScore

/-- Method `CrashDetector::detectCrash`; `now` is the value `millis()` returns.
The result is the returned severity and the state after the call. -/
def detectCrash (d : CrashDetector) (currentReading : SensorData) (now : Nat) :
    Int × CrashDetector :=
  let crashScore := calculateCrashScore d currentReading
  let detectedSeverity :=
    if crashScore ≥ 8 then SEVERE_CRASH
    else if crashScore ≥ 5 then MODERATE_CRASH
    else if crashScore ≥ 3 then MINOR_CRASH
    else NO_CRASH
  if detectedSeverity > NO_CRASH ∧ ¬ d.crashDetected then
    (detectedSeverity,
      { d with
        crashDetected := true
        crashDetectionTime := now
        currentSeverity := detectedSeverity })
  else (detectedSeverity, d)

/-- Method `CrashDetector::addToHistory`. -/
def addToHistory (d : CrashDetector) (data : SensorData) : CrashDetector :=
  { d with
    sensorHistory := d.sensorHistory.set d.currentIndex.toNat data
    currentIndex := (d.currentIndex + 1).tmod d.historySize }

/-- Method `CrashDetector::isCrashDetected`. -/
def isCrashDetected (d : CrashDetector) : Bool := d.crashDetected

/-- Method `CrashDetector::getCrashSeverity`. -/
def getCrashSeverity (d : CrashDetector) : Int := d.currentSeverity

/-- Method `CrashDetector::resetCrashDetection`. -/
def resetCrashDetection (d : CrashDetector) : CrashDetector :=
  { d with
    crashDetected := false
    crashDetectionTime := 0
    currentSeverity := NO_CRASH }

/-- Method `CrashDetector::shouldAutoReset` (not `const` in the header); `now` is
the value `millis()` returns.  The result is the returned flag and the state
after the call. -/
def shouldAutoReset (d : CrashDetector) (now : Nat) : Bool × CrashDetector :=
  if ¬ d.crashDetected then (false, d)
  else
    let timeSinceCrash := u32Sub now d.crashDetectionTime
    (decide (d.currentSeverity = MINOR_CRASH ∧ (timeSinceCrash : ℚ) > d.config.recoveryTime), d)

/-- Method `CrashDetector::updateConfig`. -/
def updateConfig (d : CrashDetector) (newConfig : CrashDetectionConfig) : CrashDetector :=
  { d with config := newConfig }

/-- Method `CrashDetector::getConfig`. -/
def getConfig (d : CrashDetector) : CrashDetectionConfig := d.config

/-- Method `CrashDetector::getHistory`. -/
def getHistory (d : CrashDetector) : List SensorData := d.sensorHistory

/-- Method `CrashDetector::getHistoryIndex`. -/
def getHistoryIndex (d : CrashDetector) : Int := d.currentIndex

/-! ## The six factors of the score, one definition each

These restate the six blocks of `calculateCrashScore` as separate contributions,
in the words of the specification; `calculateCrashScore_eq_factors` shows that
the source's running sum is their sum. -/

/-- Factor 1: 2 above `accelThreshold`, 3 when also above `severeAccelThreshold`. -/
def accelFactor (cfg : CrashDetectionConfig) (s : SensorData) : Int :=
  if (calculateMagnitude s.accelX s.accelY s.accelZ).gt cfg.accelThreshold then
    (if (calculateMagnitude s.accelX s.accelY s.accelZ).gt cfg.severeAccelThreshold then 3 else 2)
  else 0

/-- Factor 2: 2 above `gyroThreshold`, 3 when also above `severeGyroThreshold`. -/
def gyroFactor (cfg : CrashDetectionConfig) (s : SensorData) : Int :=
  if (calculateMagnitude s.gyroX s.gyroY s.gyroZ).gt cfg.gyroThreshold then
    (if (calculateMagnitude s.gyroX s.gyroY s.gyroZ).gt cfg.severeGyroThreshold then 3 else 2)
  else 0

/-- Factor 3: the jerk against the slot before the write cursor, evaluated only
when the cursor is positive; 2 above `jerkThreshold`, 3 when also above
`severeJerkThreshold`. -/
def jerkFactor (d : CrashDetector) (s : SensorData) : Int :=
  if d.currentIndex > 0 then
    (if (calculateJerk s (d.slot ((d.currentIndex - 1 + d.historySize).tmod d.historySize))).gt
        d.config.jerkThreshold then
      (if (calculateJerk s (d.slot ((d.currentIndex - 1 + d.historySize).tmod d.historySize))).gt
        d.config.severeJerkThreshold then 3 else 2)
    else 0)
  else 0

/-- Factor 4: 2 when the vibration input reads `HIGH`. -/
def vibrationFactor (s : SensorData) : Int :=
  if s.vibration = HIGH then 2 else 0

/-- Factor 5: 1 when the distance is positive and below `proximityThreshold`. -/
def proximityFactor (cfg : CrashDetectionConfig) (s : SensorData) : Int :=
  if s.distance < cfg.proximityThreshold ∧ s.distance > 0 then 1 else 0

/-- Factor 6: 2 when the backward run reaches `consecutiveReadings`. -/
def consecutiveFactor (d : CrashDetector) : Int :=
  if calculateConsecutiveHighReadings d ≥ d.config.consecutiveReadings then 2 else 0

/-- The severity breakpoints of `detectCrash`, as a function of the score. -/
def severityOfScore (crashScore : Int) : Int :=
  if crashScore ≥ 8 then SEVERE_CRASH
  else if crashScore ≥ 5 then MODERATE_CRASH
  else if crashScore ≥ 3 then MINOR_CRASH
  else NO_CRASH

/-! ## Inputs of `test/test_crash_detection.cpp`

The tests leave `latitude` and `longitude` unset and stamp the sample with
`millis()`; these are arguments here. -/

/-- The configuration `setUp` builds in `testConfig` before `detector.begin`. -/
def testConfig : CrashDetectionConfig :=
  { ({} : CrashDetectionConfig) with
    accelThreshold := 3
    gyroThreshold := 250
    jerkThreshold := 10
    proximityThreshold := 30
    consecutiveReadings := 3
    recoveryTime := 5000 }

/-- Sample `normalData` of `test_no_crash_normal_conditions`. -/
def normalData (lat lon : ℚ) (ts : Nat) : SensorData :=
  { accelX := 1 / 10, accelY := 1 / 10, accelZ := 1, gyroX := 5, gyroY := 3, gyroZ := 2,
    distance := 100, vibration := LOW, latitude := lat, longitude := lon, timestamp := ts }

/-- Sample `crashData` of `test_minor_crash_detection`. -/
def crashData (lat lon : ℚ) (ts : Nat) : SensorData :=
  { accelX := 7 / 2, accelY := 1, accelZ := 2, gyroX := 100, gyroY := 50, gyroZ := 30,
    distance := 25, vibration := HIGH, latitude := lat, longitude := lon, timestamp := ts }

/-- Sample `severeData` of `test_severe_crash_detection` (and `severeCrash` of
`test_no_auto_reset_severe_crash`). -/
def severeData (lat lon : ℚ) (ts : Nat) : SensorData :=
  { accelX := 8, accelY := 6, accelZ := 4, gyroX := 500, gyroY := 400, gyroZ := 300,
    distance := 15, vibration := HIGH, latitude := lat, longitude := lon, timestamp := ts }

/-- Sample `minorCrash` of `test_auto_reset_minor_crash`. -/
def minorCrash (lat lon : ℚ) (ts : Nat) : SensorData :=
  { accelX := 7 / 2, accelY := 1, accelZ := 3 / 2, gyroX := 100, gyroY := 50, gyroZ := 30,
    distance := 25, vibration := HIGH, latitude := lat, longitude := lon, timestamp := ts }

/-- A sample along the x axes only, used to reach a chosen score on a fresh
detector with the default thresholds. -/
def axisSample (accel gyro distance : ℚ) (vibration : Int) : SensorData :=
  { accelX := accel, accelY := 0, accelZ := 0, gyroX := gyro, gyroY := 0, gyroZ := 0,
    distance := distance, vibration := vibration, latitude := 0, longitude := 0,
    timestamp := 0 }

/-- A freshly constructed detector after `begin` with the default configuration. -/
def fresh : CrashDetector := begin CrashDetector.new {}

/-- Readings `reading1` of `test_jerk_calculation`: only the acceleration and the
timestamp are set, the other fields keep whatever `base` holds. -/
def reading1 (base : SensorData) : SensorData :=
  { base with accelX := 1, accelY := 0, accelZ := 1, timestamp := 1000 }

/-- Readings `reading2` of `test_jerk_calculation`, 100 ms after `reading1`. -/
def reading2 (base : SensorData) : SensorData :=
  { base with accelX := 5, accelY := 3, accelZ := 2, timestamp := 1100 }

/-- Sample `highData` of `test_consecutive_readings`. -/
def highData (lat lon : ℚ) (ts : Nat) : SensorData :=
  { accelX := 16 / 5, accelY := 1, accelZ := 3 / 2, gyroX := 50, gyroY := 30, gyroZ := 20,
    distance := 50, vibration := LOW, latitude := lat, longitude := lon, timestamp := ts }

/-! ## Call sequences -/

/-- The calls `addToHistory(s_1); ...; addToHistory(s_n)` in this order. -/
def appendAll (d : CrashDetector) (l : List SensorData) : CrashDetector :=
  l.foldl addToHistory d

/-- One sampling tick as `loop()` of `main.cpp` and the loop of
`test_consecutive_readings` run it: `addToHistory(s)` and then `detectCrash(s)`;
`now` is the value `millis()` returns inside `detectCrash`. -/
def tick (d : CrashDetector) (s : SensorData) (now : Nat) : Int × CrashDetector :=
  detectCrash (addToHistory d s) s now

/-- The state after a sequence of ticks, each given by its sample and clock value. -/
def ticks (d : CrashDetector) (items : List (SensorData × Nat)) : CrashDetector :=
  items.foldl (fun e x => (tick e x.1 x.2).2) d

/-! ## Names for parts of the source used in the statements -/

/-- The slot `sensorHistory[(currentIndex - i - 1 + historySize) % historySize]`
that `calculateConsecutiveHighReadings` reads in iteration `i`: the slot `i + 1`
places behind the write cursor. -/
def CrashDetector.recent (d : CrashDetector) (i : Int) : SensorData :=
  d.slot ((d.currentIndex - i - 1 + d.historySize).tmod d.historySize)

/-- The sample `sensorHistory[prevIndex]` that factor 3 of `calculateCrashScore`
passes to `calculateJerk` as `previous`. -/
def jerkPrevious (d : CrashDetector) : SensorData :=
  d.slot ((d.currentIndex - 1 + d.historySize).tmod d.historySize)

/-- The test `magnitude > config.accelThreshold * 0.7` of the loop body of
`calculateConsecutiveHighReadings`, on a sample. -/
def highReading (cfg : CrashDetectionConfig) (x : SensorData) : Bool :=
  (calculateMagnitude x.accelX x.accelY x.accelZ).gt (cfg.accelThreshold * (7 / 10))

/-- The condition `detectedSeverity > NO_CRASH && !crashDetector.isCrashDetected()`
of `loop()` in `main.cpp`, evaluated right after `addToHistory(currentData)` and
`detectCrash(currentData)`; it guards the emergency-alert branch. -/
def loopAlertCondition (d : CrashDetector) (currentData : SensorData) (now : Nat) : Bool :=
  let detectedSeverity := (tick d currentData now).1
  let crashDetector := (tick d currentData now).2
  decide (detectedSeverity > NO_CRASH) && !(isCrashDetected crashDetector)

/-! ## Reachable states -/

/-- The states reached from `d0` by a finite sequence of calls of the methods that
take the object as non-`const` (`begin`, `addToHistory`, `detectCrash`,
`resetCrashDetection`, `updateConfig`, `shouldAutoReset`), with any arguments and
clock values. -/
inductive Reachable (d0 : CrashDetector) : CrashDetector → Prop
  | start : Reachable d0 d0
  | afterBegin (d : CrashDetector) (cfg : CrashDetectionConfig) :
      Reachable d0 d → Reachable d0 (begin d cfg)
  | afterAddToHistory (d : CrashDetector) (data : SensorData) :
      Reachable d0 d → Reachable d0 (addToHistory d data)
  | afterDetectCrash (d : CrashDetector) (reading : SensorData) (now : Nat) :
      Reachable d0 d → Reachable d0 (detectCrash d reading now).2
  | afterResetCrashDetection (d : CrashDetector) :
      Reachable d0 d → Reachable d0 (resetCrashDetection d)
  | afterUpdateConfig (d : CrashDetector) (cfg : CrashDetectionConfig) :
      Reachable d0 d → Reachable d0 (updateConfig d cfg)
  | afterShouldAutoReset (d : CrashDetector) (now : Nat) :
      Reachable d0 d → Reachable d0 (shouldAutoReset d now).2

/-- The buffer is allocated with the capacity of `SENSOR_HISTORY_SIZE` and the write
cursor is inside it. -/
def bufferReady (d : CrashDetector) : Prop :=
  d.historySize = 10 ∧ d.sensorHistory.length = 10 ∧ 0 ≤ d.currentIndex ∧ d.currentIndex < 10

/-- The alarm fields agree: armed exactly when a severity above None is stored,
unarmed exactly when None is stored, and then the raise timestamp is 0. -/
def alarmConsistent (d : CrashDetector) : Prop :=
  (d.crashDetected = true ↔
    d.currentSeverity = MINOR_CRASH ∨ d.currentSeverity = MODERATE_CRASH ∨
      d.currentSeverity = SEVERE_CRASH) ∧
  (d.crashDetected = false ↔ d.currentSeverity = NO_CRASH) ∧
  (d.crashDetected = false → d.crashDetectionTime = 0)

/-! ## Shared lemmas -/

theorem ite_add_eq_add_ite (c : Prop) [Decidable c] (x k : Int) :
    (if c then x + k else x) = x + (if c then k else 0) := by
  split <;> simp

theorem calculateCrashScore_eq_factors (d : CrashDetector) (s : SensorData) :
    calculateCrashScore d s =
      accelFactor d.config s + gyroFactor d.config s + jerkFactor d s + vibrationFactor s
        + proximityFactor d.config s + consecutiveFactor d := by
  simp only [calculateCrashScore, accelFactor, gyroFactor, jerkFactor, vibrationFactor,
    proximityFactor, consecutiveFactor, ite_add_eq_add_ite]
  ring

theorem accelFactor_cases (cfg : CrashDetectionConfig) (s : SensorData) :
    accelFactor cfg s = 0 ∨ accelFactor cfg s = 2 ∨ accelFactor cfg s = 3 := by
  unfold accelFactor; split_ifs <;> simp

theorem gyroFactor_cases (cfg : CrashDetectionConfig) (s : SensorData) :
    gyroFactor cfg s = 0 ∨ gyroFactor cfg s = 2 ∨ gyroFactor cfg s = 3 := by
  unfold gyroFactor; split_ifs <;> simp

theorem jerkFactor_cases (d : CrashDetector) (s : SensorData) :
    jerkFactor d s = 0 ∨ jerkFactor d s = 2 ∨ jerkFactor d s = 3 := by
  unfold jerkFactor; split_ifs <;> simp

theorem vibrationFactor_cases (s : SensorData) :
    vibrationFactor s = 0 ∨ vibrationFactor s = 2 := by
  unfold vibrationFactor; split_ifs <;> simp

theorem proximityFactor_cases (cfg : CrashDetectionConfig) (s : SensorData) :
    proximityFactor cfg s = 0 ∨ proximityFactor cfg s = 1 := by
  unfold proximityFactor; split_ifs <;> simp

theorem consecutiveFactor_cases (d : CrashDetector) :
    consecutiveFactor d = 0 ∨ consecutiveFactor d = 2 := by
  unfold consecutiveFactor; split_ifs <;> simp

theorem detectCrash_fst (d : CrashDetector) (s : SensorData) (now : Nat) :
    (detectCrash d s now).1 = severityOfScore (calculateCrashScore d s) := by
  unfold detectCrash severityOfScore
  dsimp only
  split_ifs <;> rfl

theorem detectCrash_snd (d : CrashDetector) (s : SensorData) (now : Nat) :
    (detectCrash d s now).2 =
      if severityOfScore (calculateCrashScore d s) > NO_CRASH ∧ d.crashDetected = false then
        { d with
          crashDetected := true
          crashDetectionTime := now
          currentSeverity := severityOfScore (calculateCrashScore d s) }
      else d := by
  unfold detectCrash
  simp only [Bool.not_eq_true, severityOfScore]
  split_ifs <;> rfl

theorem severityOfScore_pos_iff (sc : Int) : severityOfScore sc > NO_CRASH ↔ 3 ≤ sc := by
  unfold severityOfScore SEVERE_CRASH MODERATE_CRASH MINOR_CRASH NO_CRASH
  split_ifs <;> omega

/-! ### The `Root` representation is exact -/

theorem Root.gt_iff_sqrt (m : Root) (t : ℚ) :
    m.gt t = true ↔ (t : ℝ) < Real.sqrt (m.radicand : ℝ) := by
  unfold Root.gt
  rw [decide_eq_true_eq]
  rcases lt_or_le t 0 with ht | ht
  · have h1 : (t : ℝ) < 0 := by exact_mod_cast ht
    constructor
    · intro _
      exact lt_of_lt_of_le h1 (Real.sqrt_nonneg _)
    · intro _
      exact Or.inl ht
  · have h1 : (0 : ℝ) ≤ (t : ℝ) := by exact_mod_cast ht
    rw [Real.lt_sqrt h1]
    constructor
    · rintro (h2 | h2)
      · exact absurd h2 (not_lt.mpr ht)
      · have : ((t * t : ℚ) : ℝ) < (m.radicand : ℝ) := by exact_mod_cast h2
        rw [sq]
        push_cast at this
        exact this
    · intro h2
      right
      rw [sq] at h2
      exact_mod_cast h2

theorem Root.divPos_sqrt (m : Root) (q : ℚ) (hq : 0 < q) :
    Real.sqrt ((m.divPos q).radicand : ℝ) = Real.sqrt (m.radicand : ℝ) / (q : ℝ) := by
  have h1 : (0 : ℝ) ≤ (q : ℝ) := by exact_mod_cast hq.le
  unfold Root.divPos
  push_cast
  rw [Real.sqrt_div' _ (mul_self_nonneg _), Real.sqrt_mul_self h1]

theorem calculateMagnitude_radicand_nonneg (x y z : ℚ) :
    0 ≤ (calculateMagnitude x y z).radicand := by
  unfold calculateMagnitude
  have hx := mul_self_nonneg x
  have hy := mul_self_nonneg y
  have hz := mul_self_nonneg z
  show 0 ≤ x * x + y * y + z * z
  linarith

/-! ### Unsigned subtraction -/

theorem u32Sub_of_le (a b : Nat) (hab : b ≤ a) (ha : a < 4294967296) : u32Sub a b = a - b := by
  unfold u32Sub
  omega

theorem u32Sub_of_lt (a b : Nat) (hab : a < b) (hb : b < 4294967296) :
    u32Sub a b = a + 4294967296 - b := by
  unfold u32Sub
  omega

/-! ### The state after `begin` -/

theorem begin_slot (d : CrashDetector) (cfg : CrashDetectionConfig) (idx : Int) :
    (begin d cfg).slot idx = SensorData.zero := by
  simp only [CrashDetector.slot, begin, List.getD_eq_getElem?_getD, List.getElem?_replicate]
  split <;> rfl

theorem consecutiveLoop_begin (d : CrashDetector) (cfg : CrashDetectionConfig)
    (h : 0 ≤ cfg.accelThreshold) (n : Nat) (i c : Int) :
    consecutiveLoop (begin d cfg) n i c = c := by
  cases n with
  | zero => rfl
  | succ n =>
    unfold consecutiveLoop
    simp only [begin_slot]
    have hgt : (calculateMagnitude SensorData.zero.accelX SensorData.zero.accelY
        SensorData.zero.accelZ).gt ((begin d cfg).config.accelThreshold * (7 / 10)) = false := by
      have h0 : (begin d cfg).config.accelThreshold = cfg.accelThreshold := rfl
      rw [h0]
      simp only [calculateMagnitude, SensorData.zero, Root.gt, decide_eq_false_iff_not, not_or,
        not_lt]
      constructor
      · positivity
      · nlinarith [mul_self_nonneg (cfg.accelThreshold * (7 / 10))]
    rw [hgt]
    simp

theorem jerkFactor_begin (d : CrashDetector) (cfg : CrashDetectionConfig) (s : SensorData) :
    jerkFactor (begin d cfg) s = 0 := by
  simp [jerkFactor, begin]

theorem consecutiveFactor_begin (d : CrashDetector) (cfg : CrashDetectionConfig)
    (h : 0 ≤ cfg.accelThreshold) (hc : 1 ≤ cfg.consecutiveReadings) :
    consecutiveFactor (begin d cfg) = 0 := by
  unfold consecutiveFactor calculateConsecutiveHighReadings
  rw [consecutiveLoop_begin d cfg h]
  have h0 : (begin d cfg).config.consecutiveReadings = cfg.consecutiveReadings := rfl
  rw [h0, if_neg (by omega)]

theorem score_begin (d : CrashDetector) (cfg : CrashDetectionConfig) (s : SensorData)
    (h : 0 ≤ cfg.accelThreshold) (hc : 1 ≤ cfg.consecutiveReadings) :
    calculateCrashScore (begin d cfg) s =
      accelFactor cfg s + gyroFactor cfg s + vibrationFactor s + proximityFactor cfg s := by
  rw [calculateCrashScore_eq_factors, jerkFactor_begin, consecutiveFactor_begin d cfg h hc]
  have h0 : (begin d cfg).config = cfg := rfl
  rw [h0]
  ring

theorem score_fresh (s : SensorData) :
    calculateCrashScore fresh s =
      accelFactor {} s + gyroFactor {} s + vibrationFactor s + proximityFactor {} s :=
  score_begin CrashDetector.new {} s (by norm_num) (by norm_num)

/-! ### Scores of the test inputs on a fresh detector -/

theorem score_fresh_normalData (lat lon : ℚ) (ts : Nat) :
    calculateCrashScore fresh (normalData lat lon ts) = 0 := by
  rw [score_fresh]
  norm_num [accelFactor, gyroFactor, vibrationFactor, proximityFactor, calculateMagnitude,
    Root.gt, normalData, HIGH, LOW]

theorem score_fresh_crashData (lat lon : ℚ) (ts : Nat) :
    calculateCrashScore fresh (crashData lat lon ts) = 5 := by
  rw [score_fresh]
  norm_num [accelFactor, gyroFactor, vibrationFactor, proximityFactor, calculateMagnitude,
    Root.gt, crashData, HIGH]

theorem score_fresh_severeData (lat lon : ℚ) (ts : Nat) :
    calculateCrashScore fresh (severeData lat lon ts) = 9 := by
  rw [score_fresh]
  norm_num [accelFactor, gyroFactor, vibrationFactor, proximityFactor, calculateMagnitude,
    Root.gt, severeData, HIGH]

theorem score_fresh_minorCrash (lat lon : ℚ) (ts : Nat) :
    calculateCrashScore fresh (minorCrash lat lon ts) = 5 := by
  rw [score_fresh]
  norm_num [accelFactor, gyroFactor, vibrationFactor, proximityFactor, calculateMagnitude,
    Root.gt, minorCrash, HIGH]

theorem score_fresh_axis_2 : calculateCrashScore fresh (axisSample 0 0 100 HIGH) = 2 := by
  rw [score_fresh]
  norm_num [accelFactor, gyroFactor, vibrationFactor, proximityFactor, calculateMagnitude,
    Root.gt, axisSample, HIGH]

theorem score_fresh_axis_3 : calculateCrashScore fresh (axisSample 0 0 25 HIGH) = 3 := by
  rw [score_fresh]
  norm_num [accelFactor, gyroFactor, vibrationFactor, proximityFactor, calculateMagnitude,
    Root.gt, axisSample, HIGH]

theorem score_fresh_axis_4 : calculateCrashScore fresh (axisSample 4 0 100 HIGH) = 4 := by
  rw [score_fresh]
  norm_num [accelFactor, gyroFactor, vibrationFactor, proximityFactor, calculateMagnitude,
    Root.gt, axisSample, HIGH]

theorem score_fresh_axis_5 : calculateCrashScore fresh (axisSample 4 0 25 HIGH) = 5 := by
  rw [score_fresh]
  norm_num [accelFactor, gyroFactor, vibrationFactor, proximityFactor, calculateMagnitude,
    Root.gt, axisSample, HIGH]

theorem score_fresh_axis_7 : calculateCrashScore fresh (axisSample 6 300 100 HIGH) = 7 := by
  rw [score_fresh]
  norm_num [accelFactor, gyroFactor, vibrationFactor, proximityFactor, calculateMagnitude,
    Root.gt, axisSample, HIGH]

theorem score_fresh_axis_8 : calculateCrashScore fresh (axisSample 6 300 25 HIGH) = 8 := by
  rw [score_fresh]
  norm_num [accelFactor, gyroFactor, vibrationFactor, proximityFactor, calculateMagnitude,
    Root.gt, axisSample, HIGH]

/-! ### The alarm fields do not enter the score -/

theorem consecutiveLoop_congr (d e : CrashDetector) (hc : e.config = d.config)
    (hh : e.sensorHistory = d.sensorHistory) (hs : e.historySize = d.historySize)
    (hi : e.currentIndex = d.currentIndex) (n : Nat) (i c : Int) :
    consecutiveLoop e n i c = consecutiveLoop d n i c := by
  induction n generalizing i c with
  | zero => rfl
  | succ n ih =>
    unfold consecutiveLoop
    simp only [CrashDetector.slot, hc, hh, hs, hi, ih]

theorem calculateCrashScore_congr (d e : CrashDetector) (hc : e.config = d.config)
    (hh : e.sensorHistory = d.sensorHistory) (hs : e.historySize = d.historySize)
    (hi : e.currentIndex = d.currentIndex) (s : SensorData) :
    calculateCrashScore e s = calculateCrashScore d s := by
  unfold calculateCrashScore calculateConsecutiveHighReadings
  simp only [CrashDetector.slot, hc, hh, hs, hi, consecutiveLoop_congr d e hc hh hs hi]

theorem detectCrash_of_unarmed (d : CrashDetector) (s : SensorData) (now : Nat)
    (h : d.crashDetected = false) (hs : 3 ≤ calculateCrashScore d s) :
    (detectCrash d s now).2 =
      { d with
        crashDetected := true
        crashDetectionTime := now
        currentSeverity := severityOfScore (calculateCrashScore d s) } := by
  rw [detectCrash_snd, if_pos ⟨(severityOfScore_pos_iff _).mpr hs, h⟩]

theorem detectCrash_of_armed (d : CrashDetector) (s : SensorData) (now : Nat)
    (h : d.crashDetected = true) : (detectCrash d s now).2 = d := by
  rw [detectCrash_snd, if_neg]
  rintro ⟨_, h2⟩
  rw [h] at h2
  exact Bool.noConfusion h2

theorem detectCrash_of_low_score (d : CrashDetector) (s : SensorData) (now : Nat)
    (hs : calculateCrashScore d s < 3) : (detectCrash d s now).2 = d := by
  rw [detectCrash_snd, if_neg]
  rintro ⟨h1, _⟩
  have := (severityOfScore_pos_iff _).mp h1
  omega

theorem shouldAutoReset_fst_iff (d : CrashDetector) (now : Nat) :
    (shouldAutoReset d now).1 = true ↔
      d.crashDetected = true ∧ d.currentSeverity = MINOR_CRASH ∧
        (u32Sub now d.crashDetectionTime : ℚ) > d.config.recoveryTime := by
  unfold shouldAutoReset
  cases h : d.crashDetected <;> simp

theorem shouldAutoReset_of_ne_minor (d : CrashDetector) (now : Nat)
    (h : d.currentSeverity ≠ MINOR_CRASH) : (shouldAutoReset d now).1 = false := by
  rw [← Bool.not_eq_true, shouldAutoReset_fst_iff]
  rintro ⟨_, h2, _⟩
  exact h h2

theorem begin_testConfig : begin CrashDetector.new testConfig = fresh := rfl

/-! ### The ring buffer after `begin` and a sequence of appends -/

theorem appendAll_snoc (d : CrashDetector) (l : List SensorData) (s : SensorData) :
    appendAll d (l ++ [s]) = addToHistory (appendAll d l) s := by
  simp [appendAll, List.foldl_append]

theorem tmod_ten (a : Int) (ha : 0 ≤ a) : a.tmod 10 = a % 10 :=
  Int.tmod_eq_emod ha (by decide)

theorem appendAll_begin (d0 : CrashDetector) (h0 : d0.historySize = 10)
    (cfg : CrashDetectionConfig) (l : List SensorData) :
    (appendAll (begin d0 cfg) l).config = cfg ∧
    (appendAll (begin d0 cfg) l).historySize = 10 ∧
    (appendAll (begin d0 cfg) l).currentIndex = ((l.length % 10 : Nat) : Int) ∧
    (appendAll (begin d0 cfg) l).sensorHistory.length = 10 ∧
    (appendAll (begin d0 cfg) l).crashDetected = false ∧
    (appendAll (begin d0 cfg) l).crashDetectionTime = 0 ∧
    (appendAll (begin d0 cfg) l).currentSeverity = NO_CRASH ∧
    ∀ i : Nat, i < 10 →
      (appendAll (begin d0 cfg) l).sensorHistory[(l.length + 9 - i) % 10]? =
        some (l.reverse.getD i SensorData.zero) := by
  induction l using List.reverseRecOn with
  | nil =>
    refine ⟨rfl, h0, rfl, ?_, rfl, rfl, rfl, ?_⟩
    · simp [appendAll, begin, h0]
    · intro i hi
      have hmod : (([] : List SensorData).length + 9 - i) % 10 < 10 := Nat.mod_lt _ (by decide)
      have hten : (10 : Int).toNat = 10 := rfl
      show (List.replicate d0.historySize.toNat SensorData.zero)[_]? = _
      rw [h0, hten, List.getElem?_replicate, if_pos hmod]
      rfl
  | append_singleton l s ih =>
    obtain ⟨hc, hs, hi, hlen, ha, ht, hsev, hslots⟩ := ih
    rw [appendAll_snoc]
    have hidx : (appendAll (begin d0 cfg) l).currentIndex.toNat = l.length % 10 := by
      rw [hi]
      rfl
    refine ⟨hc, hs, ?_, ?_, ha, ht, hsev, ?_⟩
    · show ((appendAll (begin d0 cfg) l).currentIndex + 1).tmod
        (appendAll (begin d0 cfg) l).historySize = _
      rw [hs, hi, tmod_ten _ (by omega), List.length_append, List.length_singleton]
      omega
    · show ((appendAll (begin d0 cfg) l).sensorHistory.set _ s).length = 10
      rw [List.length_set, hlen]
    · intro i hi10
      show ((appendAll (begin d0 cfg) l).sensorHistory.set
        (appendAll (begin d0 cfg) l).currentIndex.toNat s)[_]? = _
      rw [hidx, List.length_append, List.length_singleton, List.reverse_append]
      cases i with
      | zero =>
        have e : (l.length + 1 + 9 - 0) % 10 = l.length % 10 := by omega
        rw [e, List.getElem?_set_eq_of_lt]
        · rfl
        · rw [hlen]
          exact Nat.mod_lt _ (by decide)
      | succ j =>
        have e : (l.length + 1 + 9 - (j + 1)) % 10 = (l.length + 9 - j) % 10 := by omega
        have hne : l.length % 10 ≠ (l.length + 9 - j) % 10 := by omega
        rw [e, List.getElem?_set_ne hne, hslots j (by omega)]
        rfl

theorem recent_appendAll (d0 : CrashDetector) (h0 : d0.historySize = 10)
    (cfg : CrashDetectionConfig) (l : List SensorData) (i : Nat) (hi : i < 10) :
    (appendAll (begin d0 cfg) l).recent (i : Int) = l.reverse.getD i SensorData.zero := by
  obtain ⟨_, hs, hci, _, _, _, _, hslots⟩ := appendAll_begin d0 h0 cfg l
  unfold CrashDetector.recent CrashDetector.slot
  rw [hs, hci, tmod_ten _ (by omega)]
  have e : ((((l.length % 10 : Nat) : Int) - (i : Int) - 1 + 10) % 10).toNat
      = (l.length + 9 - i) % 10 := by omega
  rw [e, List.getD_eq_getElem?_getD, hslots i hi]
  rfl

theorem jerkPrevious_eq_recent (d : CrashDetector) : jerkPrevious d = d.recent 0 := by
  unfold jerkPrevious CrashDetector.recent
  rw [sub_zero]

theorem jerkFactor_eq (d : CrashDetector) (s : SensorData) :
    jerkFactor d s =
      if d.currentIndex > 0 then
        (if (calculateJerk s (jerkPrevious d)).gt d.config.jerkThreshold then
          (if (calculateJerk s (jerkPrevious d)).gt d.config.severeJerkThreshold then 3 else 2)
        else 0)
      else 0 := rfl

/-! ### The backward run of `calculateConsecutiveHighReadings` -/

theorem consecutiveLoop_succ (d : CrashDetector) (n : Nat) (i c : Int) :
    consecutiveLoop d (n + 1) i c =
      if (d.currentIndex - i - 1 + d.historySize).tmod d.historySize < 0 then c
      else if highReading d.config (d.recent i) = true then consecutiveLoop d n (i + 1) (c + 1)
      else c := rfl

theorem consecutiveLoop_stop (d : CrashDetector) (n : Nat) (i c : Int)
    (h : highReading d.config (d.recent i) = false) : consecutiveLoop d n i c = c := by
  cases n with
  | zero => rfl
  | succ n =>
    rw [consecutiveLoop_succ, h]
    split_ifs <;> first | rfl | contradiction

theorem consecutiveLoop_run (d : CrashDetector) (hs : d.historySize = 10)
    (hci : 0 ≤ d.currentIndex) (n i0 : Nat) (hn : i0 + n ≤ 10) (c : Int)
    (hq : ∀ j : Nat, i0 ≤ j → j < i0 + n → highReading d.config (d.recent (j : Int)) = true) :
    consecutiveLoop d n (i0 : Int) c = c + (n : Int) := by
  induction n generalizing i0 c with
  | zero => simp [consecutiveLoop]
  | succ n ih =>
    have hidx : ¬ (d.currentIndex - (i0 : Int) - 1 + d.historySize).tmod d.historySize < 0 := by
      rw [hs, tmod_ten _ (by omega)]
      omega
    rw [consecutiveLoop_succ, if_neg hidx, if_pos (hq i0 (le_refl _) (by omega))]
    have h1 := ih (i0 + 1) (by omega) (c + 1) (fun j h1 h2 => hq j (by omega) (by omega))
    rw [Nat.cast_add, Nat.cast_one] at h1
    rw [h1]
    push_cast
    ring

theorem Root.gt_scaled (m : Root) (t : ℚ) (h : m.gt t = true) :
    m.gt (t * (7 / 10)) = true := by
  unfold Root.gt at h ⊢
  rw [decide_eq_true_eq] at h ⊢
  rcases lt_or_le t 0 with ht | ht
  · left
    linarith
  · right
    rcases h with h | h
    · exact absurd h (not_lt.mpr ht)
    · nlinarith [mul_nonneg ht ht]

/-! ### The buffer under `detectCrash`, `addToHistory` and ticks -/

theorem detectCrash_buffer (d : CrashDetector) (s : SensorData) (now : Nat) :
    (detectCrash d s now).2.config = d.config ∧
    (detectCrash d s now).2.sensorHistory = d.sensorHistory ∧
    (detectCrash d s now).2.historySize = d.historySize ∧
    (detectCrash d s now).2.currentIndex = d.currentIndex := by
  rw [detectCrash_snd]
  split_ifs <;> exact ⟨rfl, rfl, rfl, rfl⟩

theorem addToHistory_congr (d e : CrashDetector) (hc : e.config = d.config)
    (hh : e.sensorHistory = d.sensorHistory) (hs : e.historySize = d.historySize)
    (hi : e.currentIndex = d.currentIndex) (s : SensorData) :
    (addToHistory e s).config = (addToHistory d s).config ∧
    (addToHistory e s).sensorHistory = (addToHistory d s).sensorHistory ∧
    (addToHistory e s).historySize = (addToHistory d s).historySize ∧
    (addToHistory e s).currentIndex = (addToHistory d s).currentIndex := by
  unfold addToHistory
  simp only [hc, hh, hs, hi, and_self]

theorem ticks_snoc (d : CrashDetector) (items : List (SensorData × Nat)) (x : SensorData × Nat) :
    ticks d (items ++ [x]) = (tick (ticks d items) x.1 x.2).2 := by
  simp [ticks, List.foldl_append]

theorem ticks_buffer (d : CrashDetector) (items : List (SensorData × Nat)) :
    (ticks d items).config = (appendAll d (items.map Prod.fst)).config ∧
    (ticks d items).sensorHistory = (appendAll d (items.map Prod.fst)).sensorHistory ∧
    (ticks d items).historySize = (appendAll d (items.map Prod.fst)).historySize ∧
    (ticks d items).currentIndex = (appendAll d (items.map Prod.fst)).currentIndex := by
  induction items using List.reverseRecOn with
  | nil => exact ⟨rfl, rfl, rfl, rfl⟩
  | append_singleton items x ih =>
    obtain ⟨hc, hh, hs, hi⟩ := ih
    rw [ticks_snoc, List.map_append, List.map_singleton, appendAll_snoc]
    unfold tick
    obtain ⟨c1, c2, c3, c4⟩ := detectCrash_buffer (addToHistory (ticks d items) x.1) x.1 x.2
    obtain ⟨a1, a2, a3, a4⟩ := addToHistory_congr (appendAll d (items.map Prod.fst))
      (ticks d items) hc hh hs hi x.1
    exact ⟨c1.trans a1, c2.trans a2, c3.trans a3, c4.trans a4⟩

/-! ### `calculateJerk` by cases on the timestamps -/

theorem u32Sub_self (a : Nat) : u32Sub a a = 0 := by
  unfold u32Sub
  omega

theorem calculateJerk_same_ts (c p : SensorData) (h : c.timestamp = p.timestamp) :
    calculateJerk c p = Root.zero := by
  unfold calculateJerk
  rw [h, u32Sub_self]
  simp

theorem calculateJerk_of_pos (c p : SensorData) (h : 0 < u32Sub c.timestamp p.timestamp) :
    calculateJerk c p =
      (calculateMagnitude (c.accelX - p.accelX) (c.accelY - p.accelY)
        (c.accelZ - p.accelZ)).divPos ((u32Sub c.timestamp p.timestamp : ℚ) / 1000) := by
  unfold calculateJerk
  have hpos : (0 : ℚ) < (u32Sub c.timestamp p.timestamp : ℚ) / 1000 := by
    have : (0 : ℚ) < (u32Sub c.timestamp p.timestamp : ℚ) := by exact_mod_cast h
    positivity
  simp only
  rw [if_neg (not_le.mpr hpos)]

theorem calculateJerk_of_lt (c p : SensorData) (hlt : p.timestamp < c.timestamp)
    (hb : c.timestamp < 4294967296) :
    calculateJerk c p =
      (calculateMagnitude (c.accelX - p.accelX) (c.accelY - p.accelY)
        (c.accelZ - p.accelZ)).divPos (((c.timestamp - p.timestamp : Nat) : ℚ) / 1000) := by
  have e := u32Sub_of_le c.timestamp p.timestamp hlt.le hb
  rw [calculateJerk_of_pos c p (by omega), e]

theorem Root.zero_gt (t : ℚ) (ht : 0 ≤ t) : Root.zero.gt t = false := by
  unfold Root.gt Root.zero
  rw [decide_eq_false_iff_not, not_or]
  exact ⟨not_lt.mpr ht, not_lt.mpr (mul_self_nonneg t)⟩

theorem jerk_reading2_reading1 (b : SensorData) :
    calculateJerk (reading2 b) (reading1 b) = ⟨2600⟩ := by
  have h1 : (reading1 b).timestamp < (reading2 b).timestamp :=
    show (1000 : Nat) < 1100 by decide
  have h2 : (reading2 b).timestamp < 4294967296 := show (1100 : Nat) < 4294967296 by decide
  rw [calculateJerk_of_lt _ _ h1 h2]
  norm_num [calculateMagnitude, Root.divPos, reading1, reading2]

/-! ### Run length and factor 6 from the most recent slots -/

theorem calculateConsecutiveHighReadings_full (d : CrashDetector) (hs : d.historySize = 10)
    (hci : 0 ≤ d.currentIndex) (hk1 : 1 ≤ d.config.consecutiveReadings)
    (hk2 : d.config.consecutiveReadings ≤ 10)
    (hq : ∀ j : Nat, (j : Int) < d.config.consecutiveReadings →
      highReading d.config (d.recent (j : Int)) = true) :
    calculateConsecutiveHighReadings d = d.config.consecutiveReadings := by
  unfold calculateConsecutiveHighReadings
  simp only
  rw [hs, min_eq_left hk2]
  have h := consecutiveLoop_run d hs hci d.config.consecutiveReadings.toNat 0 (by omega) 0
    (fun j _ hj => hq j (by omega))
  rw [Nat.cast_zero] at h
  rw [h]
  omega

theorem calculateConsecutiveHighReadings_zero (d : CrashDetector)
    (h : highReading d.config (d.recent 0) = false) :
    calculateConsecutiveHighReadings d = 0 := by
  unfold calculateConsecutiveHighReadings
  exact consecutiveLoop_stop d _ 0 0 h

theorem reverse_getD_mem (l r : List SensorData) (j : Nat) (hj : j < r.length) :
    (l ++ r).reverse.getD j SensorData.zero ∈ r := by
  have hj2 : j < r.reverse.length := by rw [List.length_reverse]; exact hj
  rw [List.reverse_append, List.getD_eq_getElem?_getD, List.getElem?_append_left hj2,
    List.getElem?_eq_getElem hj2, Option.getD_some]
  exact List.mem_reverse.mp (List.getElem_mem hj2)

theorem reverse_getD_snoc (l : List SensorData) (s : SensorData) :
    (l ++ [s]).reverse.getD 0 SensorData.zero = s := by
  simp

theorem highReading_highData (lat lon : ℚ) (ts : Nat) :
    highReading {} (highData lat lon ts) = true := by
  norm_num [highReading, calculateMagnitude, Root.gt, highData]

theorem accel_gt_highData (lat lon : ℚ) (ts : Nat) :
    (calculateMagnitude (highData lat lon ts).accelX (highData lat lon ts).accelY
      (highData lat lon ts).accelZ).gt testConfig.accelThreshold = true := by
  norm_num [calculateMagnitude, Root.gt, highData, testConfig]

theorem severityOfScore_eq_none (sc : Int) (h : ¬ severityOfScore sc > NO_CRASH) :
    severityOfScore sc = NO_CRASH := by
  rw [severityOfScore_pos_iff] at h
  unfold severityOfScore
  rw [if_neg (by omega), if_neg (by omega), if_neg h]

theorem reverse_getD_eq (l : List SensorData) (i : Nat) :
    l.reverse.getD i SensorData.zero =
      if h : i < l.length then l[l.length - 1 - i] else SensorData.zero := by
  rw [List.getD_eq_getElem?_getD]
  split_ifs with h
  · rw [List.getElem?_reverse h, List.getElem?_eq_getElem (by omega), Option.getD_some]
  · rw [List.getElem?_eq_none (by rw [List.length_reverse]; omega)]
    rfl

/-! ### Invariants of the reachable states -/

theorem shouldAutoReset_snd (d : CrashDetector) (now : Nat) : (shouldAutoReset d now).2 = d := by
  unfold shouldAutoReset
  split_ifs <;> rfl

theorem bufferReady_begin (d : CrashDetector) (cfg : CrashDetectionConfig)
    (h : d.historySize = 10) : bufferReady (begin d cfg) := by
  refine ⟨h, ?_, le_refl _, show (0 : Int) < 10 by decide⟩
  show (List.replicate d.historySize.toNat SensorData.zero).length = 10
  rw [h, List.length_replicate]
  rfl

theorem bufferReady_addToHistory (d : CrashDetector) (s : SensorData) (h : bufferReady d) :
    bufferReady (addToHistory d s) := by
  obtain ⟨hs, hlen, h0, h10⟩ := h
  refine ⟨hs, ?_, ?_, ?_⟩
  · show (d.sensorHistory.set _ s).length = 10
    rw [List.length_set, hlen]
  · show 0 ≤ (d.currentIndex + 1).tmod d.historySize
    rw [hs, tmod_ten _ (by omega)]
    omega
  · show (d.currentIndex + 1).tmod d.historySize < 10
    rw [hs, tmod_ten _ (by omega)]
    omega

theorem bufferReady_reachable (d0 d : CrashDetector) (h0 : bufferReady d0)
    (h : Reachable d0 d) : bufferReady d := by
  induction h with
  | start => exact h0
  | afterBegin d cfg _ ih => exact bufferReady_begin d cfg ih.1
  | afterAddToHistory d data _ ih => exact bufferReady_addToHistory d data ih
  | afterDetectCrash d reading now _ ih =>
    obtain ⟨_, c2, c3, c4⟩ := detectCrash_buffer d reading now
    unfold bufferReady
    rw [c2, c3, c4]
    exact ih
  | afterResetCrashDetection d _ ih => exact ih
  | afterUpdateConfig d cfg _ ih => exact ih
  | afterShouldAutoReset d now _ ih =>
    rw [shouldAutoReset_snd]
    exact ih

theorem jerkPrevious_addToHistory (d : CrashDetector) (s : SensorData) (h : bufferReady d) :
    jerkPrevious (addToHistory d s) = s := by
  obtain ⟨hs, hlen, h0, h10⟩ := h
  show (d.sensorHistory.set d.currentIndex.toNat s).getD
    (((d.currentIndex + 1).tmod d.historySize - 1 + d.historySize).tmod d.historySize).toNat
    SensorData.zero = s
  rw [hs, tmod_ten (d.currentIndex + 1) (by omega), tmod_ten _ (by omega)]
  have e : (((d.currentIndex + 1) % 10 - 1 + 10) % 10).toNat = d.currentIndex.toNat := by omega
  rw [e, List.getD_eq_getElem?_getD, List.getElem?_set_eq_of_lt]
  · rfl
  · rw [hlen]
    omega

theorem severityOfScore_cases (sc : Int) :
    severityOfScore sc = NO_CRASH ∨ severityOfScore sc = MINOR_CRASH ∨
      severityOfScore sc = MODERATE_CRASH ∨ severityOfScore sc = SEVERE_CRASH := by
  unfold severityOfScore
  split_ifs <;> simp

theorem alarmConsistent_cleared (d : CrashDetector) (ha : d.crashDetected = false)
    (ht : d.crashDetectionTime = 0) (hs : d.currentSeverity = NO_CRASH) : alarmConsistent d := by
  unfold alarmConsistent
  rw [ha, hs]
  refine ⟨?_, ?_, fun _ => ht⟩
  · constructor
    · intro h
      exact Bool.noConfusion h
    · intro h
      rcases h with h | h | h <;> exact absurd h (by decide)
  · exact ⟨fun _ => rfl, fun _ => rfl⟩

theorem alarmConsistent_detectCrash (d : CrashDetector) (s : SensorData) (now : Nat)
    (h : alarmConsistent d) : alarmConsistent (detectCrash d s now).2 := by
  rw [detectCrash_snd]
  split_ifs with hc
  · obtain ⟨hpos, _⟩ := hc
    have hcases := severityOfScore_cases (calculateCrashScore d s)
    have hne : severityOfScore (calculateCrashScore d s) ≠ NO_CRASH := by
      intro h0
      rw [h0] at hpos
      exact lt_irrefl _ hpos
    unfold alarmConsistent
    refine ⟨?_, ?_, ?_⟩
    · constructor
      · intro _
        rcases hcases with h1 | h1
        · exact absurd h1 hne
        · exact h1
      · intro _
        rfl
    · constructor
      · intro hf
        exact Bool.noConfusion hf
      · intro h0
        exact absurd h0 hne
    · intro hf
      exact Bool.noConfusion hf
  · exact h

theorem alarmConsistent_reachable (d0 d : CrashDetector) (h0 : alarmConsistent d0)
    (h : Reachable d0 d) : alarmConsistent d := by
  induction h with
  | start => exact h0
  | afterBegin d cfg _ _ => exact alarmConsistent_cleared _ rfl rfl rfl
  | afterAddToHistory d data _ ih => exact ih
  | afterDetectCrash d reading now _ ih => exact alarmConsistent_detectCrash d reading now ih
  | afterResetCrashDetection d _ _ => exact alarmConsistent_cleared _ rfl rfl rfl
  | afterUpdateConfig d cfg _ ih => exact ih
  | afterShouldAutoReset d now _ ih =>
    rw [shouldAutoReset_snd]
    exact ih

/-! ### Bounds on the backward run -/

theorem consecutiveLoop_bounds (d : CrashDetector) (n : Nat) (i c : Int) :
    c ≤ consecutiveLoop d n i c ∧ consecutiveLoop d n i c ≤ c + (n : Int) := by
  induction n generalizing i c with
  | zero => simp [consecutiveLoop]
  | succ n ih =>
    rw [consecutiveLoop_succ]
    have h := ih (i + 1) (c + 1)
    split_ifs
    · constructor <;> omega
    · constructor <;> omega
    · constructor <;> omega

theorem jerkFactor_negative_threshold :
    jerkFactor (addToHistory (begin CrashDetector.new { jerkThreshold := -1 }) SensorData.zero)
      SensorData.zero = 2 := by
  have hprev := jerkPrevious_addToHistory (begin CrashDetector.new { jerkThreshold := -1 })
    SensorData.zero (bufferReady_begin _ _ rfl)
  rw [jerkFactor_eq, hprev, calculateJerk_same_ts _ _ rfl]
  norm_num [Root.gt, Root.zero, addToHistory, begin, CrashDetector.new, SENSOR_HISTORY_SIZE]
  decide

/-! ## Claims -/

/-- C1: the severity `detectCrash` returns follows the fixed breakpoints of the
score it computes: Severe from 8, Moderate on 5..7, Minor on 3..4, None below 3;
and on a fresh detector the inputs `axisSample ..` reach the scores 2, 3, 4, 5,
7, 8 and are classified None, Minor, Minor, Moderate, Moderate, Severe. -/
theorem detectCrash_severity_breakpoints (d : CrashDetector) (s : SensorData) (now : Nat) :
    ((8 ≤ calculateCrashScore d s → (detectCrash d s now).1 = SEVERE_CRASH) ∧
      (5 ≤ calculateCrashScore d s ∧ calculateCrashScore d s < 8 →
        (detectCrash d s now).1 = MODERATE_CRASH) ∧
      (3 ≤ calculateCrashScore d s ∧ calculateCrashScore d s < 5 →
        (detectCrash d s now).1 = MINOR_CRASH) ∧
      (calculateCrashScore d s < 3 → (detectCrash d s now).1 = NO_CRASH)) ∧
    (calculateCrashScore fresh (axisSample 0 0 100 HIGH) = 2 ∧
      (detectCrash fresh (axisSample 0 0 100 HIGH) now).1 = NO_CRASH) ∧
    (calculateCrashScore fresh (axisSample 0 0 25 HIGH) = 3 ∧
      (detectCrash fresh (axisSample 0 0 25 HIGH) now).1 = MINOR_CRASH) ∧
    (calculateCrashScore fresh (axisSample 4 0 100 HIGH) = 4 ∧
      (detectCrash fresh (axisSample 4 0 100 HIGH) now).1 = MINOR_CRASH) ∧
    (calculateCrashScore fresh (axisSample 4 0 25 HIGH) = 5 ∧
      (detectCrash fresh (axisSample 4 0 25 HIGH) now).1 = MODERATE_CRASH) ∧
    (calculateCrashScore fresh (axisSample 6 300 100 HIGH) = 7 ∧
      (detectCrash fresh (axisSample 6 300 100 HIGH) now).1 = MODERATE_CRASH) ∧
    (calculateCrashScore fresh (axisSample 6 300 25 HIGH) = 8 ∧
      (detectCrash fresh (axisSample 6 300 25 HIGH) now).1 = SEVERE_CRASH) := by
  refine ⟨?_, ?_, ?_, ?_, ?_, ?_, ?_⟩
  · rw [detectCrash_fst]
    unfold severityOfScore
    refine ⟨?_, ?_, ?_, ?_⟩
    · intro h
      rw [if_pos h]
    · rintro ⟨h1, h2⟩
      rw [if_neg (by omega), if_pos h1]
    · rintro ⟨h1, h2⟩
      rw [if_neg (by omega), if_neg (by omega), if_pos h1]
    · intro h
      rw [if_neg (by omega), if_neg (by omega), if_neg (by omega)]
  · rw [detectCrash_fst, score_fresh_axis_2]
    exact ⟨rfl, by decide⟩
  · rw [detectCrash_fst, score_fresh_axis_3]
    exact ⟨rfl, by decide⟩
  · rw [detectCrash_fst, score_fresh_axis_4]
    exact ⟨rfl, by decide⟩
  · rw [detectCrash_fst, score_fresh_axis_5]
    exact ⟨rfl, by decide⟩
  · rw [detectCrash_fst, score_fresh_axis_7]
    exact ⟨rfl, by decide⟩
  · rw [detectCrash_fst, score_fresh_axis_8]
    exact ⟨rfl, by decide⟩

/-- C2: `calculateCrashScore` is the sum of six contributions: 3 / 2 / 0 for the
acceleration magnitude against `accelThreshold` and `severeAccelThreshold`, the
same for the gyro magnitude, the jerk contribution (0, 2 or 3), 2 for a `HIGH`
vibration flag, 1 for a distance strictly between 0 and `proximityThreshold`, and
the consecutive-run contribution (0 or 2); so the score lies in 0..14. -/
theorem calculateCrashScore_six_factor_sum (d : CrashDetector) (s : SensorData) :
    calculateCrashScore d s =
        (if (calculateMagnitude s.accelX s.accelY s.accelZ).gt d.config.accelThreshold = true ∧
            (calculateMagnitude s.accelX s.accelY s.accelZ).gt d.config.severeAccelThreshold = true
          then 3
          else if (calculateMagnitude s.accelX s.accelY s.accelZ).gt d.config.accelThreshold = true
          then 2 else 0)
        + (if (calculateMagnitude s.gyroX s.gyroY s.gyroZ).gt d.config.gyroThreshold = true ∧
            (calculateMagnitude s.gyroX s.gyroY s.gyroZ).gt d.config.severeGyroThreshold = true
          then 3
          else if (calculateMagnitude s.gyroX s.gyroY s.gyroZ).gt d.config.gyroThreshold = true
          then 2 else 0)
        + jerkFactor d s
        + (if s.vibration = HIGH then 2 else 0)
        + (if 0 < s.distance ∧ s.distance < d.config.proximityThreshold then 1 else 0)
        + consecutiveFactor d ∧
    (jerkFactor d s = 0 ∨ jerkFactor d s = 2 ∨ jerkFactor d s = 3) ∧
    (consecutiveFactor d = 0 ∨ consecutiveFactor d = 2) ∧
    0 ≤ calculateCrashScore d s ∧ calculateCrashScore d s ≤ 14 := by
  have ha := accelFactor_cases d.config s
  have hg := gyroFactor_cases d.config s
  have hj := jerkFactor_cases d s
  have hv := vibrationFactor_cases s
  have hp := proximityFactor_cases d.config s
  have hc := consecutiveFactor_cases d
  have hsum := calculateCrashScore_eq_factors d s
  refine ⟨?_, hj, hc, by omega, by omega⟩
  rw [hsum]
  unfold accelFactor gyroFactor vibrationFactor proximityFactor
  congr 1
  congr 1
  · congr 1
    congr 1
    congr 1
    · split_ifs <;> simp_all
    · split_ifs <;> simp_all
  · split_ifs <;> simp_all

/-- C3 (as the code behaves): on a fresh detector with the default thresholds the
sample accel=(3.5,1.0,2.0), gyro=(100,50,30), distance=25, vibration=HIGH scores
2 + 2 + 1 = 5, so `detectCrash` returns Moderate (not Minor) and arms the alarm
with stored severity Moderate. -/
theorem detectCrash_crashData_is_moderate (lat lon : ℚ) (ts now : Nat) :
    calculateCrashScore fresh (crashData lat lon ts) = 5 ∧
    (detectCrash fresh (crashData lat lon ts) now).1 = MODERATE_CRASH ∧
    (detectCrash fresh (crashData lat lon ts) now).1 ≠ MINOR_CRASH ∧
    isCrashDetected (detectCrash fresh (crashData lat lon ts) now).2 = true ∧
    getCrashSeverity (detectCrash fresh (crashData lat lon ts) now).2 = MODERATE_CRASH := by
  rw [detectCrash_fst, detectCrash_snd, score_fresh_crashData]
  refine ⟨rfl, by decide, by decide, ?_, ?_⟩
  · rw [if_pos ⟨by decide, rfl⟩]
    rfl
  · rw [if_pos ⟨by decide, rfl⟩]
    rfl

/-- C4: from an unarmed state, a call of `detectCrash` that computes a severity
above None arms the alarm, stores exactly the returned severity and records the
clock value of the call; a call that computes None leaves the state as it was. -/
theorem detectCrash_arms_when_unarmed (d : CrashDetector) (s : SensorData) (now : Nat)
    (h : d.crashDetected = false) :
    ((detectCrash d s now).1 > NO_CRASH →
      isCrashDetected (detectCrash d s now).2 = true ∧
      getCrashSeverity (detectCrash d s now).2 = (detectCrash d s now).1 ∧
      (detectCrash d s now).2.crashDetectionTime = now) ∧
    ((detectCrash d s now).1 = NO_CRASH → (detectCrash d s now).2 = d) := by
  constructor
  · intro hpos
    rw [detectCrash_fst] at hpos
    have hs := (severityOfScore_pos_iff _).mp hpos
    rw [detectCrash_of_unarmed d s now h hs, detectCrash_fst]
    exact ⟨rfl, rfl, rfl⟩
  · intro hnone
    rw [detectCrash_fst] at hnone
    apply detectCrash_of_low_score
    by_contra hlt
    have hpos := (severityOfScore_pos_iff (calculateCrashScore d s)).mpr (by omega)
    rw [hnone] at hpos
    exact lt_irrefl _ hpos

theorem detectCrash_arms_when_unarmed_witness :
    fresh.crashDetected = false ∧
    (detectCrash fresh (severeData 0 0 0) 1234).1 > NO_CRASH ∧
    isCrashDetected (detectCrash fresh (severeData 0 0 0) 1234).2 = true ∧
    getCrashSeverity (detectCrash fresh (severeData 0 0 0) 1234).2 = SEVERE_CRASH ∧
    (detectCrash fresh (severeData 0 0 0) 1234).2.crashDetectionTime = 1234 ∧
    (detectCrash fresh (normalData 0 0 0) 1234).2 = fresh := by
  have hsev : (detectCrash fresh (severeData 0 0 0) 1234).1 = SEVERE_CRASH := by
    rw [detectCrash_fst, score_fresh_severeData]
    decide
  have hnone : (detectCrash fresh (normalData 0 0 0) 1234).1 = NO_CRASH := by
    rw [detectCrash_fst, score_fresh_normalData]
    decide
  have hpos : (detectCrash fresh (severeData 0 0 0) 1234).1 > NO_CRASH := by
    rw [hsev]
    decide
  have h1 := (detectCrash_arms_when_unarmed fresh (severeData 0 0 0) 1234 rfl).1 hpos
  have h2 := (detectCrash_arms_when_unarmed fresh (normalData 0 0 0) 1234 rfl).2 hnone
  exact ⟨rfl, hpos, h1.1, h1.2.1.trans hsev, h1.2.2, h2⟩

/-- C5: when the alarm is already armed, `detectCrash` leaves the armed flag, the
stored severity and the raise timestamp (indeed the whole state) unchanged,
whatever severity the sample scores. -/
theorem detectCrash_armed_unchanged (d : CrashDetector) (s : SensorData) (now : Nat)
    (h : d.crashDetected = true) :
    isCrashDetected (detectCrash d s now).2 = isCrashDetected d ∧
    getCrashSeverity (detectCrash d s now).2 = getCrashSeverity d ∧
    (detectCrash d s now).2.crashDetectionTime = d.crashDetectionTime ∧
    (detectCrash d s now).2 = d := by
  rw [detectCrash_of_armed d s now h]
  exact ⟨rfl, rfl, rfl, rfl⟩

theorem detectCrash_armed_unchanged_witness :
    (detectCrash fresh (axisSample 0 0 25 HIGH) 10).2.crashDetected = true ∧
    (detectCrash fresh (axisSample 0 0 25 HIGH) 10).2.currentSeverity = MINOR_CRASH ∧
    (detectCrash (detectCrash fresh (axisSample 0 0 25 HIGH) 10).2 (severeData 0 0 0) 99).1
      = SEVERE_CRASH ∧
    (detectCrash (detectCrash fresh (axisSample 0 0 25 HIGH) 10).2 (severeData 0 0 0) 99).2
      = (detectCrash fresh (axisSample 0 0 25 HIGH) 10).2 := by
  have hst := detectCrash_of_unarmed fresh (axisSample 0 0 25 HIGH) 10 rfl
    (by rw [score_fresh_axis_3])
  have harmed : (detectCrash fresh (axisSample 0 0 25 HIGH) 10).2.crashDetected = true := by
    rw [hst]
  refine ⟨harmed, ?_, ?_, ?_⟩
  · rw [hst, score_fresh_axis_3]
    rfl
  · rw [detectCrash_fst, calculateCrashScore_congr fresh _ (by rw [hst]) (by rw [hst])
      (by rw [hst]) (by rw [hst]), score_fresh_severeData]
    decide
  · exact (detectCrash_armed_unchanged _ (severeData 0 0 0) 99 harmed).2.2.2

/-- C6: `shouldAutoReset` returns true exactly when the alarm is armed, the stored
severity is Minor and the elapsed time (32-bit unsigned `now - crashDetectionTime`)
is strictly greater than `recoveryTime`; hence it is false at elapsed =
`recoveryTime` and false for stored severity Moderate or Severe; the call changes
no state. -/
theorem shouldAutoReset_iff (d : CrashDetector) (now : Nat) :
    ((shouldAutoReset d now).1 = true ↔
      isCrashDetected d = true ∧ getCrashSeverity d = MINOR_CRASH ∧
        (u32Sub now d.crashDetectionTime : ℚ) > d.config.recoveryTime) ∧
    ((u32Sub now d.crashDetectionTime : ℚ) = d.config.recoveryTime →
      (shouldAutoReset d now).1 = false) ∧
    (getCrashSeverity d = MODERATE_CRASH ∨ getCrashSeverity d = SEVERE_CRASH →
      (shouldAutoReset d now).1 = false) ∧
    (shouldAutoReset d now).2 = d := by
  refine ⟨shouldAutoReset_fst_iff d now, ?_, ?_, ?_⟩
  · intro heq
    rw [← Bool.not_eq_true, shouldAutoReset_fst_iff]
    rintro ⟨_, _, h3⟩
    rw [heq] at h3
    exact lt_irrefl _ h3
  · intro hsev
    apply shouldAutoReset_of_ne_minor
    unfold getCrashSeverity at hsev
    rcases hsev with h1 | h1 <;> rw [h1] <;> decide
  · unfold shouldAutoReset
    split_ifs <;> rfl

/-- C7: `resetCrashDetection` yields armed = false, stored severity None and raise
timestamp 0, leaves the buffer, the write cursor and the configuration (and with
them the score of every sample) unchanged, and a following `detectCrash` that
computes a severity above None arms the alarm again with that severity. -/
theorem resetCrashDetection_clears (d : CrashDetector) (s : SensorData) (now : Nat) :
    isCrashDetected (resetCrashDetection d) = false ∧
    getCrashSeverity (resetCrashDetection d) = NO_CRASH ∧
    (resetCrashDetection d).crashDetectionTime = 0 ∧
    getHistory (resetCrashDetection d) = getHistory d ∧
    getHistoryIndex (resetCrashDetection d) = getHistoryIndex d ∧
    getConfig (resetCrashDetection d) = getConfig d ∧
    (resetCrashDetection d).historySize = d.historySize ∧
    calculateCrashScore (resetCrashDetection d) s = calculateCrashScore d s ∧
    ((detectCrash (resetCrashDetection d) s now).1 > NO_CRASH →
      isCrashDetected (detectCrash (resetCrashDetection d) s now).2 = true ∧
      getCrashSeverity (detectCrash (resetCrashDetection d) s now).2
        = (detectCrash (resetCrashDetection d) s now).1 ∧
      (detectCrash (resetCrashDetection d) s now).2.crashDetectionTime = now) := by
  refine ⟨rfl, rfl, rfl, rfl, rfl, rfl, rfl,
    calculateCrashScore_congr d (resetCrashDetection d) rfl rfl rfl rfl s, ?_⟩
  intro hpos
  rw [detectCrash_fst] at hpos
  have hs := (severityOfScore_pos_iff _).mp hpos
  rw [detectCrash_of_unarmed _ s now rfl hs, detectCrash_fst]
  exact ⟨rfl, rfl, rfl⟩

/-- C8: for every configuration, buffer and sample whose acceleration magnitude
does not exceed `accelThreshold`, whose gyro magnitude does not exceed
`gyroThreshold`, whose vibration flag is not `HIGH`, whose distance is at least
`proximityThreshold` or non-positive, and whose jerk contribution is 0, the score
is at most 2 (the consecutive-run factor alone), `detectCrash` returns None and
the state, in particular an unarmed alarm, is unchanged. -/
theorem detectCrash_quiet_sample (d : CrashDetector) (s : SensorData) (now : Nat)
    (ha : (calculateMagnitude s.accelX s.accelY s.accelZ).gt d.config.accelThreshold = false)
    (hg : (calculateMagnitude s.gyroX s.gyroY s.gyroZ).gt d.config.gyroThreshold = false)
    (hv : s.vibration ≠ HIGH)
    (hp : s.distance ≥ d.config.proximityThreshold ∨ s.distance ≤ 0)
    (hj : jerkFactor d s = 0) :
    calculateCrashScore d s ≤ 2 ∧
    (detectCrash d s now).1 = NO_CRASH ∧
    (isCrashDetected d = false → isCrashDetected (detectCrash d s now).2 = false) ∧
    (detectCrash d s now).2 = d := by
  have hc := consecutiveFactor_cases d
  have hsum := calculateCrashScore_eq_factors d s
  have h1 : accelFactor d.config s = 0 := by
    unfold accelFactor
    rw [ha]
    rfl
  have h2 : gyroFactor d.config s = 0 := by
    unfold gyroFactor
    rw [hg]
    rfl
  have h4 : vibrationFactor s = 0 := by
    unfold vibrationFactor
    rw [if_neg hv]
  have h5 : proximityFactor d.config s = 0 := by
    unfold proximityFactor
    rw [if_neg]
    rintro ⟨hlt, hpos⟩
    rcases hp with hp | hp
    · exact absurd hlt (not_lt.mpr hp)
    · exact absurd hpos (not_lt.mpr hp)
  have hle : calculateCrashScore d s ≤ 2 := by omega
  have hst := detectCrash_of_low_score d s now (by omega)
  refine ⟨hle, ?_, ?_, hst⟩
  · rw [detectCrash_fst]
    unfold severityOfScore
    rw [if_neg (by omega), if_neg (by omega), if_neg (by omega)]
  · intro hu
    rw [hst]
    exact hu

theorem detectCrash_quiet_sample_witness :
    calculateCrashScore fresh (normalData 0 0 0) ≤ 2 ∧
    (detectCrash fresh (normalData 0 0 0) 0).1 = NO_CRASH ∧
    (isCrashDetected fresh = false →
      isCrashDetected (detectCrash fresh (normalData 0 0 0) 0).2 = false) ∧
    (detectCrash fresh (normalData 0 0 0) 0).2 = fresh :=
  detectCrash_quiet_sample fresh (normalData 0 0 0) 0
    (by norm_num [calculateMagnitude, Root.gt, normalData, fresh, begin])
    (by norm_num [calculateMagnitude, Root.gt, normalData, fresh, begin])
    (by decide)
    (Or.inl (by norm_num [normalData, fresh, begin]))
    (jerkFactor_begin _ _ _)

/-- C9: on a fresh detector with the default thresholds the sample
accel=(8,6,4), gyro=(500,400,300), distance=15, vibration=HIGH scores 9:
`detectCrash` returns Severe, the alarm is armed with stored severity Severe, and
`shouldAutoReset` is false at every later clock value. -/
theorem detectCrash_severeData (lat lon : ℚ) (ts now later : Nat) :
    (detectCrash fresh (severeData lat lon ts) now).1 = SEVERE_CRASH ∧
    isCrashDetected (detectCrash fresh (severeData lat lon ts) now).2 = true ∧
    getCrashSeverity (detectCrash fresh (severeData lat lon ts) now).2 = SEVERE_CRASH ∧
    (shouldAutoReset (detectCrash fresh (severeData lat lon ts) now).2 later).1 = false := by
  have hst := detectCrash_of_unarmed fresh (severeData lat lon ts) now rfl
    (by rw [score_fresh_severeData]; decide)
  rw [score_fresh_severeData] at hst
  rw [detectCrash_fst, score_fresh_severeData, hst]
  refine ⟨by decide, rfl, rfl, ?_⟩
  apply shouldAutoReset_of_ne_minor
  show severityOfScore 9 ≠ MINOR_CRASH
  decide

/-- C10 (as the code behaves): after `begin` with the test configuration the
sample accel=(3.5,1.0,1.5), gyro=(100,50,30), distance=25, vibration=HIGH scores
2 + 2 + 1 = 5, so `detectCrash` returns Moderate (not Minor), the alarm is armed
with stored severity Moderate, and `shouldAutoReset` is false at every later
clock value, also more than `recoveryTime` after the raise. -/
theorem detectCrash_minorCrash_is_moderate (lat lon : ℚ) (ts now later : Nat) :
    calculateCrashScore (begin CrashDetector.new testConfig) (minorCrash lat lon ts) = 5 ∧
    (detectCrash (begin CrashDetector.new testConfig) (minorCrash lat lon ts) now).1
      = MODERATE_CRASH ∧
    isCrashDetected
      (detectCrash (begin CrashDetector.new testConfig) (minorCrash lat lon ts) now).2 = true ∧
    getCrashSeverity
      (detectCrash (begin CrashDetector.new testConfig) (minorCrash lat lon ts) now).2
      = MODERATE_CRASH ∧
    (shouldAutoReset
      (detectCrash (begin CrashDetector.new testConfig) (minorCrash lat lon ts) now).2 later).1
      = false := by
  rw [begin_testConfig]
  have hst := detectCrash_of_unarmed fresh (minorCrash lat lon ts) now rfl
    (by rw [score_fresh_minorCrash]; decide)
  rw [score_fresh_minorCrash] at hst
  rw [detectCrash_fst, score_fresh_minorCrash, hst]
  refine ⟨rfl, by decide, rfl, rfl, ?_⟩
  apply shouldAutoReset_of_ne_minor
  show severityOfScore 5 ≠ MINOR_CRASH
  decide

/-- C11 (as the code behaves): with the order `addToHistory(s)` then
`detectCrash(s)`, the `previous` sample of the jerk factor is the slot just
written, that is `s` itself, for every configuration and every earlier appends;
after `addToHistory(reading1); addToHistory(reading2); detectCrash(reading2)` the
reference is `reading2`, not `reading1`, and the jerk factor adds 0 although the
jerk against `reading1` (√2600 ≈ 51) exceeds both default thresholds. -/
theorem jerkPrevious_after_append_is_sample (cfg : CrashDetectionConfig)
    (l : List SensorData) (s b : SensorData) :
    jerkPrevious (addToHistory (appendAll (begin CrashDetector.new cfg) l) s) = s ∧
    (addToHistory (addToHistory fresh (reading1 b)) (reading2 b)).currentIndex = 2 ∧
    jerkPrevious (addToHistory (addToHistory fresh (reading1 b)) (reading2 b)) = reading2 b ∧
    jerkPrevious (addToHistory (addToHistory fresh (reading1 b)) (reading2 b)) ≠ reading1 b ∧
    jerkFactor (addToHistory (addToHistory fresh (reading1 b)) (reading2 b)) (reading2 b) = 0 ∧
    (calculateJerk (reading2 b) (reading1 b)).gt 10 = true ∧
    (calculateJerk (reading2 b) (reading1 b)).gt 20 = true := by
  have hgen : ∀ (c : CrashDetectionConfig) (k : List SensorData) (x : SensorData),
      jerkPrevious (addToHistory (appendAll (begin CrashDetector.new c) k) x) = x := by
    intro c k x
    rw [← appendAll_snoc, jerkPrevious_eq_recent]
    have h := recent_appendAll CrashDetector.new rfl c (k ++ [x]) 0 (by decide)
    rw [Nat.cast_zero] at h
    rw [h]
    simp
  have h2 : addToHistory (addToHistory fresh (reading1 b)) (reading2 b)
      = addToHistory (appendAll (begin CrashDetector.new {}) [reading1 b]) (reading2 b) := rfl
  have hprev := hgen {} [reading1 b] (reading2 b)
  rw [← h2] at hprev
  refine ⟨hgen cfg l s, rfl, hprev, ?_, ?_, ?_, ?_⟩
  · rw [hprev]
    intro h
    have hts : (1100 : Nat) = 1000 := congrArg SensorData.timestamp h
    exact absurd hts (by decide)
  · rw [jerkFactor_eq, hprev, calculateJerk_same_ts _ _ rfl]
    have hz : Root.zero.gt
        (addToHistory (addToHistory fresh (reading1 b)) (reading2 b)).config.jerkThreshold
        = false := Root.zero_gt _ (by norm_num [addToHistory, fresh, begin])
    rw [hz]
    simp
  · rw [jerk_reading2_reading1]
    norm_num [Root.gt]
  · rw [jerk_reading2_reading1]
    norm_num [Root.gt]

/-- C12 (as the code behaves): after `begin` and n appends the guard
`currentIndex > 0` of the jerk factor holds exactly when n is not a multiple of
10; after 10 appends of `reading1` the cursor is back at 0 and `detectCrash` skips
the jerk factor for `reading2` (it adds 0), although the slot before the cursor
holds `reading1` and the jerk against it exceeds both default thresholds. -/
theorem jerk_guard_after_appends (cfg : CrashDetectionConfig) (l : List SensorData)
    (b : SensorData) :
    ((appendAll (begin CrashDetector.new cfg) l).currentIndex > 0 ↔ l.length % 10 ≠ 0) ∧
    (appendAll fresh (List.replicate 10 (reading1 b))).currentIndex = 0 ∧
    jerkFactor (appendAll fresh (List.replicate 10 (reading1 b))) (reading2 b) = 0 ∧
    jerkPrevious (appendAll fresh (List.replicate 10 (reading1 b))) = reading1 b ∧
    (calculateJerk (reading2 b) (reading1 b)).gt 10 = true ∧
    (calculateJerk (reading2 b) (reading1 b)).gt 20 = true := by
  obtain ⟨_, _, hci, _⟩ := appendAll_begin CrashDetector.new rfl cfg l
  obtain ⟨_, _, hci10, _⟩ := appendAll_begin CrashDetector.new rfl {}
    (List.replicate 10 (reading1 b))
  have hzero : (appendAll fresh (List.replicate 10 (reading1 b))).currentIndex = 0 := by
    unfold fresh
    rw [hci10, List.length_replicate]
    rfl
  refine ⟨?_, hzero, ?_, ?_, ?_, ?_⟩
  · rw [hci]
    omega
  · rw [jerkFactor_eq, hzero]
    rfl
  · rw [jerkPrevious_eq_recent]
    have h := recent_appendAll CrashDetector.new rfl {} (List.replicate 10 (reading1 b)) 0
      (by decide)
    rw [Nat.cast_zero] at h
    unfold fresh
    rw [h]
    rfl
  · rw [jerk_reading2_reading1]
    norm_num [Root.gt]
  · rw [jerk_reading2_reading1]
    norm_num [Root.gt]

/-- C13 (amended): for timestamps with currentTs ≤ previousTs, `calculateJerk`
returns 0 when the two are equal, and then the jerk factor adds 0 provided
`jerkThreshold` is not negative; when currentTs < previousTs the unsigned 32-bit
subtraction wraps, the elapsed time is currentTs + 2^32 − previousTs milliseconds
and `calculateJerk` returns the norm of the acceleration difference divided by
that time in seconds. -/
theorem calculateJerk_duplicate_or_wrapped (current previous : SensorData)
    (h : current.timestamp ≤ previous.timestamp) (hb : previous.timestamp < 4294967296) :
    (current.timestamp = previous.timestamp →
      calculateJerk current previous = Root.zero ∧
      ∀ d : CrashDetector, 0 ≤ d.config.jerkThreshold → jerkPrevious d = previous →
        jerkFactor d current = 0) ∧
    (current.timestamp ≠ previous.timestamp →
      calculateJerk current previous =
        (calculateMagnitude (current.accelX - previous.accelX)
          (current.accelY - previous.accelY) (current.accelZ - previous.accelZ)).divPos
          (((current.timestamp + 4294967296 - previous.timestamp : Nat) : ℚ) / 1000)) := by
  constructor
  · intro heq
    refine ⟨calculateJerk_same_ts _ _ heq, ?_⟩
    intro d hthr hprev
    rw [jerkFactor_eq, hprev, calculateJerk_same_ts _ _ heq, Root.zero_gt _ hthr]
    simp
  · intro hne
    have hlt : current.timestamp < previous.timestamp := lt_of_le_of_ne h hne
    have e := u32Sub_of_lt current.timestamp previous.timestamp hlt hb
    rw [calculateJerk_of_pos current previous (by omega), e]

theorem calculateJerk_duplicate_or_wrapped_witness :
    calculateJerk (reading1 SensorData.zero) (reading1 (severeData 0 0 0)) = Root.zero ∧
    jerkFactor (addToHistory fresh (reading1 (severeData 0 0 0))) (reading1 SensorData.zero)
      = 0 ∧
    calculateJerk (reading1 SensorData.zero) (reading2 SensorData.zero)
      = Root.divPos ⟨26⟩ (4294967196 / 1000) := by
  have hprev : jerkPrevious (addToHistory fresh (reading1 (severeData 0 0 0)))
      = reading1 (severeData 0 0 0) := by
    have h := recent_appendAll CrashDetector.new rfl {} [reading1 (severeData 0 0 0)] 0
      (by decide)
    rw [Nat.cast_zero] at h
    rw [jerkPrevious_eq_recent]
    exact h
  have h1 := (calculateJerk_duplicate_or_wrapped (reading1 SensorData.zero)
    (reading1 (severeData 0 0 0)) (le_refl _) (by decide)).1 rfl
  have h2 := (calculateJerk_duplicate_or_wrapped (reading1 SensorData.zero)
    (reading2 SensorData.zero) (by decide) (by decide)).2 (by decide)
  refine ⟨h1.1, h1.2 _ ?_ hprev, ?_⟩
  · norm_num [addToHistory, fresh, begin]
  · rw [h2]
    norm_num [calculateMagnitude, Root.divPos, reading1, reading2, SensorData.zero]

theorem calculateJerk_nonmonotonic_counterexample :
    (¬ ∀ current previous : SensorData, previous.timestamp < 4294967296 →
        current.timestamp ≤ previous.timestamp → calculateJerk current previous = Root.zero) ∧
    (¬ ∀ (d : CrashDetector) (current previous : SensorData),
        previous.timestamp < 4294967296 → current.timestamp ≤ previous.timestamp →
        jerkPrevious d = previous → jerkFactor d current = 0) ∧
    jerkFactor
      (addToHistory fresh { SensorData.zero with timestamp := 4294967196 })
      { SensorData.zero with accelX := 4, accelY := 3, accelZ := 1, timestamp := 100 } = 3 ∧
    jerkFactor
      (addToHistory (begin CrashDetector.new { jerkThreshold := -1 }) SensorData.zero)
      SensorData.zero = 2 := by
  have hj : calculateJerk
      { SensorData.zero with accelX := 4, accelY := 3, accelZ := 1, timestamp := 100 }
      { SensorData.zero with timestamp := 4294967196 } = ⟨650⟩ := by
    rw [calculateJerk_of_pos _ _ (by decide)]
    have e : u32Sub 100 4294967196 = 200 := by decide
    show Root.divPos _ ((u32Sub 100 4294967196 : ℚ) / 1000) = _
    rw [e]
    norm_num [calculateMagnitude, Root.divPos, SensorData.zero]
  have hprev1 : jerkPrevious
      (addToHistory fresh { SensorData.zero with timestamp := 4294967196 })
      = { SensorData.zero with timestamp := 4294967196 } := by
    have h := recent_appendAll CrashDetector.new rfl {}
      [{ SensorData.zero with timestamp := 4294967196 }] 0 (by decide)
    rw [Nat.cast_zero] at h
    rw [jerkPrevious_eq_recent]
    exact h
  have hprev2 : jerkPrevious
      (addToHistory (begin CrashDetector.new { jerkThreshold := -1 }) SensorData.zero)
      = SensorData.zero := by
    have h := recent_appendAll CrashDetector.new rfl { jerkThreshold := -1 }
      [SensorData.zero] 0 (by decide)
    rw [Nat.cast_zero] at h
    rw [jerkPrevious_eq_recent]
    exact h
  have hf1 : jerkFactor
      (addToHistory fresh { SensorData.zero with timestamp := 4294967196 })
      { SensorData.zero with accelX := 4, accelY := 3, accelZ := 1, timestamp := 100 } = 3 := by
    rw [jerkFactor_eq, hprev1, hj]
    norm_num [Root.gt, addToHistory, fresh, begin, CrashDetector.new, SENSOR_HISTORY_SIZE]
    decide
  have hf2 : jerkFactor
      (addToHistory (begin CrashDetector.new { jerkThreshold := -1 }) SensorData.zero)
      SensorData.zero = 2 := by
    rw [jerkFactor_eq, hprev2, calculateJerk_same_ts _ _ rfl]
    norm_num [Root.gt, Root.zero, addToHistory, begin, CrashDetector.new, SENSOR_HISTORY_SIZE]
    decide
  refine ⟨?_, ?_, hf1, hf2⟩
  · intro hall
    have h := hall
      { SensorData.zero with accelX := 4, accelY := 3, accelZ := 1, timestamp := 100 }
      { SensorData.zero with timestamp := 4294967196 } (by decide) (by decide)
    rw [hj] at h
    have hr : (650 : ℚ) = 0 := congrArg Root.radicand h
    norm_num at hr
  · intro hall
    have h := hall _
      { SensorData.zero with accelX := 4, accelY := 3, accelZ := 1, timestamp := 100 }
      { SensorData.zero with timestamp := 4294967196 } (by decide) (by decide) hprev1
    rw [hf1] at h
    exact absurd h (by decide)

/-- C14: for timestamps with previousTs < currentTs (32-bit values, no wrap),
`calculateJerk` returns the Euclidean norm of the acceleration difference divided
by (currentTs − previousTs)/1000; against a sample with the same timestamp it
returns 0 (the guard precedes the division); an acceleration difference of norm
10 over 100 ms gives jerk 100. -/
theorem calculateJerk_value (current previous : SensorData)
    (hlt : previous.timestamp < current.timestamp) (hb : current.timestamp < 4294967296) :
    calculateJerk current previous =
      (calculateMagnitude (current.accelX - previous.accelX)
        (current.accelY - previous.accelY) (current.accelZ - previous.accelZ)).divPos
        (((current.timestamp - previous.timestamp : Nat) : ℚ) / 1000) ∧
    Real.sqrt (((calculateJerk current previous).radicand : ℚ) : ℝ) =
      Real.sqrt (((current.accelX - previous.accelX) * (current.accelX - previous.accelX)
          + (current.accelY - previous.accelY) * (current.accelY - previous.accelY)
          + (current.accelZ - previous.accelZ) * (current.accelZ - previous.accelZ) : ℚ) : ℝ)
        / (((((current.timestamp - previous.timestamp : Nat) : ℚ) / 1000 : ℚ)) : ℝ) ∧
    (∀ q : SensorData, q.timestamp = current.timestamp → calculateJerk current q = Root.zero) ∧
    ((current.accelX - previous.accelX) * (current.accelX - previous.accelX)
        + (current.accelY - previous.accelY) * (current.accelY - previous.accelY)
        + (current.accelZ - previous.accelZ) * (current.accelZ - previous.accelZ) = 10 * 10 →
      current.timestamp - previous.timestamp = 100 →
      calculateJerk current previous = ⟨100 * 100⟩) := by
  have hq : (0 : ℚ) < ((current.timestamp - previous.timestamp : Nat) : ℚ) / 1000 := by
    have : (0 : ℚ) < ((current.timestamp - previous.timestamp : Nat) : ℚ) := by
      exact_mod_cast Nat.sub_pos_of_lt hlt
    positivity
  have hval := calculateJerk_of_lt current previous hlt hb
  refine ⟨hval, ?_, ?_, ?_⟩
  · rw [hval]
    exact Root.divPos_sqrt _ _ hq
  · intro q hqts
    exact calculateJerk_same_ts _ _ hqts.symm
  · intro hnorm hdt
    rw [hval, hdt]
    unfold calculateMagnitude Root.divPos
    simp only [hnorm]
    norm_num

theorem calculateJerk_value_witness :
    calculateJerk { SensorData.zero with accelX := 6, accelY := 8, timestamp := 1100 }
      { SensorData.zero with timestamp := 1000 } = ⟨100 * 100⟩ := by
  have h := calculateJerk_value
    { SensorData.zero with accelX := 6, accelY := 8, timestamp := 1100 }
    { SensorData.zero with timestamp := 1000 } (by decide) (by decide)
  exact h.2.2.2 (by norm_num [SensorData.zero]) (by decide)

/-- C15: after `begin` (any configuration) and exactly one `addToHistory(p)`, for
every sample `c` not itself appended, with p.timestamp < c.timestamp and the jerk
|c.accel − p.accel| / ((c.timestamp − p.timestamp)/1000) above both
`jerkThreshold` and `severeJerkThreshold`, `detectCrash(c)` returns a severity
above None, whatever the other fields of `c` are. -/
theorem detectCrash_after_one_append_high_jerk (cfg : CrashDetectionConfig)
    (p c : SensorData) (now : Nat)
    (hlt : p.timestamp < c.timestamp) (hb : c.timestamp < 4294967296)
    (h1 : ((calculateMagnitude (c.accelX - p.accelX) (c.accelY - p.accelY)
      (c.accelZ - p.accelZ)).divPos (((c.timestamp - p.timestamp : Nat) : ℚ) / 1000)).gt
        cfg.jerkThreshold = true)
    (h2 : ((calculateMagnitude (c.accelX - p.accelX) (c.accelY - p.accelY)
      (c.accelZ - p.accelZ)).divPos (((c.timestamp - p.timestamp : Nat) : ℚ) / 1000)).gt
        cfg.severeJerkThreshold = true) :
    jerkFactor (addToHistory (begin CrashDetector.new cfg) p) c = 3 ∧
    (detectCrash (addToHistory (begin CrashDetector.new cfg) p) c now).1 > NO_CRASH := by
  obtain ⟨hcfg, _, hci, _⟩ := appendAll_begin CrashDetector.new rfl cfg [p]
  have hst : appendAll (begin CrashDetector.new cfg) [p]
      = addToHistory (begin CrashDetector.new cfg) p := rfl
  rw [hst] at hcfg hci
  have hprev : jerkPrevious (addToHistory (begin CrashDetector.new cfg) p) = p := by
    have h := recent_appendAll CrashDetector.new rfl cfg [p] 0 (by decide)
    rw [Nat.cast_zero] at h
    rw [jerkPrevious_eq_recent]
    exact h
  have hj : jerkFactor (addToHistory (begin CrashDetector.new cfg) p) c = 3 := by
    rw [jerkFactor_eq, hprev, hcfg, hci, calculateJerk_of_lt c p hlt hb, h1, h2]
    rfl
  refine ⟨hj, ?_⟩
  rw [detectCrash_fst, severityOfScore_pos_iff, calculateCrashScore_eq_factors, hj]
  have ha := accelFactor_cases (addToHistory (begin CrashDetector.new cfg) p).config c
  have hg := gyroFactor_cases (addToHistory (begin CrashDetector.new cfg) p).config c
  have hv := vibrationFactor_cases c
  have hp := proximityFactor_cases (addToHistory (begin CrashDetector.new cfg) p).config c
  have hc := consecutiveFactor_cases (addToHistory (begin CrashDetector.new cfg) p)
  omega

theorem detectCrash_after_one_append_high_jerk_witness :
    jerkFactor (addToHistory fresh (reading1 SensorData.zero)) (reading2 SensorData.zero) = 3 ∧
    (detectCrash (addToHistory fresh (reading1 SensorData.zero)) (reading2 SensorData.zero)
      0).1 > NO_CRASH :=
  detectCrash_after_one_append_high_jerk {} (reading1 SensorData.zero)
    (reading2 SensorData.zero) 0 (by decide) (by decide)
    (by norm_num [calculateMagnitude, Root.divPos, Root.gt, reading1, reading2,
      SensorData.zero])
    (by norm_num [calculateMagnitude, Root.divPos, Root.gt, reading1, reading2,
      SensorData.zero])

/-- C16: for a configuration with 1 ≤ consecutiveReadings ≤ 10, after `begin` and
any appends: if the last consecutiveReadings appended samples all have an
acceleration magnitude above 0.7 · accelThreshold, the run length equals
consecutiveReadings and factor 6 adds exactly 2 to the score of every sample; if
the last appended sample is at or below that bar, the run length is 0 and factor
6 adds 0. -/
theorem consecutiveFactor_run (cfg : CrashDetectionConfig) (l r : List SensorData)
    (s x : SensorData)
    (hk1 : 1 ≤ cfg.consecutiveReadings) (hk2 : cfg.consecutiveReadings ≤ 10) :
    ((r.length : Int) = cfg.consecutiveReadings → (∀ y ∈ r, highReading cfg y = true) →
      calculateConsecutiveHighReadings (appendAll (begin CrashDetector.new cfg) (l ++ r))
        = cfg.consecutiveReadings ∧
      consecutiveFactor (appendAll (begin CrashDetector.new cfg) (l ++ r)) = 2 ∧
      calculateCrashScore (appendAll (begin CrashDetector.new cfg) (l ++ r)) x
        = accelFactor cfg x + gyroFactor cfg x
          + jerkFactor (appendAll (begin CrashDetector.new cfg) (l ++ r)) x
          + vibrationFactor x + proximityFactor cfg x + 2) ∧
    (highReading cfg s = false →
      calculateConsecutiveHighReadings (appendAll (begin CrashDetector.new cfg) (l ++ [s]))
        = 0 ∧
      consecutiveFactor (appendAll (begin CrashDetector.new cfg) (l ++ [s])) = 0 ∧
      calculateCrashScore (appendAll (begin CrashDetector.new cfg) (l ++ [s])) x
        = accelFactor cfg x + gyroFactor cfg x
          + jerkFactor (appendAll (begin CrashDetector.new cfg) (l ++ [s])) x
          + vibrationFactor x + proximityFactor cfg x + 0) := by
  constructor
  · intro hlen hhigh
    obtain ⟨hcfg, hs, hci, _⟩ := appendAll_begin CrashDetector.new rfl cfg (l ++ r)
    have hrun : calculateConsecutiveHighReadings (appendAll (begin CrashDetector.new cfg) (l ++ r))
        = cfg.consecutiveReadings := by
      have h := calculateConsecutiveHighReadings_full
        (appendAll (begin CrashDetector.new cfg) (l ++ r)) hs (by rw [hci]; omega)
        (by rw [hcfg]; exact hk1) (by rw [hcfg]; exact hk2)
        (by
          intro j hj
          rw [hcfg] at hj ⊢
          rw [recent_appendAll CrashDetector.new rfl cfg (l ++ r) j (by omega)]
          exact hhigh _ (reverse_getD_mem l r j (by omega)))
      rw [h, hcfg]
    have hfac : consecutiveFactor (appendAll (begin CrashDetector.new cfg) (l ++ r)) = 2 := by
      unfold consecutiveFactor
      rw [hrun, hcfg, if_pos (le_refl _)]
    refine ⟨hrun, hfac, ?_⟩
    rw [calculateCrashScore_eq_factors, hfac, hcfg]
  · intro hlow
    obtain ⟨hcfg, hs, hci, _⟩ := appendAll_begin CrashDetector.new rfl cfg (l ++ [s])
    have hrun : calculateConsecutiveHighReadings
        (appendAll (begin CrashDetector.new cfg) (l ++ [s])) = 0 := by
      apply calculateConsecutiveHighReadings_zero
      have h := recent_appendAll CrashDetector.new rfl cfg (l ++ [s]) 0 (by decide)
      rw [Nat.cast_zero] at h
      rw [h, hcfg, reverse_getD_snoc]
      exact hlow
    have hfac : consecutiveFactor (appendAll (begin CrashDetector.new cfg) (l ++ [s])) = 0 := by
      unfold consecutiveFactor
      rw [hrun, hcfg, if_neg (by omega)]
    refine ⟨hrun, hfac, ?_⟩
    rw [calculateCrashScore_eq_factors, hfac, hcfg]

theorem consecutiveFactor_run_witness :
    consecutiveFactor
      (appendAll fresh [highData 0 0 0, highData 0 0 100, highData 0 0 200]) = 2 ∧
    consecutiveFactor
      (appendAll fresh [highData 0 0 0, highData 0 0 100, normalData 0 0 200]) = 0 := by
  have h1 := (consecutiveFactor_run {} []
    [highData 0 0 0, highData 0 0 100, highData 0 0 200] SensorData.zero SensorData.zero
    (by decide) (by decide)).1 rfl
    (by
      intro y hy
      simp only [List.mem_cons, List.mem_singleton, List.not_mem_nil, or_false] at hy
      rcases hy with rfl | rfl | rfl <;> exact highReading_highData _ _ _)
  have h2 := (consecutiveFactor_run {} [highData 0 0 0, highData 0 0 100] []
    (normalData 0 0 200) SensorData.zero (by decide) (by decide)).2
    (by norm_num [highReading, calculateMagnitude, Root.gt, normalData])
  exact ⟨h1.2.1, h2.2.1⟩

/-- C17: for a configuration with 1 ≤ consecutiveReadings ≤ 10 and samples whose
acceleration magnitude all exceed `accelThreshold`, when after `begin` every
sample is appended and then passed to `detectCrash`, the call of every iteration
from the consecutiveReadings-th on returns a severity above None. -/
theorem detectCrash_after_consecutive_high (cfg : CrashDetectionConfig)
    (items : List (SensorData × Nat)) (s : SensorData) (now : Nat)
    (hk1 : 1 ≤ cfg.consecutiveReadings) (hk2 : cfg.consecutiveReadings ≤ 10)
    (hall : ∀ y ∈ items.map Prod.fst ++ [s],
      (calculateMagnitude y.accelX y.accelY y.accelZ).gt cfg.accelThreshold = true)
    (hlen : cfg.consecutiveReadings ≤ (items.length : Int) + 1) :
    (tick (ticks (begin CrashDetector.new cfg) items) s now).1 > NO_CRASH := by
  obtain ⟨b1, b2, b3, b4⟩ := ticks_buffer (begin CrashDetector.new cfg) items
  obtain ⟨a1, a2, a3, a4⟩ := addToHistory_congr
    (appendAll (begin CrashDetector.new cfg) (items.map Prod.fst))
    (ticks (begin CrashDetector.new cfg) items) b1 b2 b3 b4 s
  rw [← appendAll_snoc] at a1 a2 a3 a4
  obtain ⟨hcfg, hs, hci, _⟩ := appendAll_begin CrashDetector.new rfl cfg
    (items.map Prod.fst ++ [s])
  have hlen2 : (items.map Prod.fst ++ [s]).length = items.length + 1 := by simp
  have hrun := calculateConsecutiveHighReadings_full
    (appendAll (begin CrashDetector.new cfg) (items.map Prod.fst ++ [s])) hs
    (by rw [hci]; omega) (by rw [hcfg]; exact hk1) (by rw [hcfg]; exact hk2)
    (by
      intro j hj
      rw [hcfg] at hj ⊢
      rw [recent_appendAll CrashDetector.new rfl cfg _ j (by omega)]
      have hmem := reverse_getD_mem [] (items.map Prod.fst ++ [s]) j (by omega)
      rw [List.nil_append] at hmem
      exact Root.gt_scaled _ _ (hall _ hmem))
  have hfac : consecutiveFactor
      (appendAll (begin CrashDetector.new cfg) (items.map Prod.fst ++ [s])) = 2 := by
    unfold consecutiveFactor
    rw [hrun, if_pos (le_refl _)]
  have hacc : 2 ≤ accelFactor cfg s := by
    unfold accelFactor
    rw [hall s (by simp), if_pos rfl]
    split_ifs <;> decide
  unfold tick
  rw [detectCrash_fst, severityOfScore_pos_iff,
    calculateCrashScore_congr _ _ a1 a2 a3 a4, calculateCrashScore_eq_factors, hfac, hcfg]
  have hg := gyroFactor_cases cfg s
  have hj := jerkFactor_cases
    (appendAll (begin CrashDetector.new cfg) (items.map Prod.fst ++ [s])) s
  have hv := vibrationFactor_cases s
  have hp := proximityFactor_cases cfg s
  omega

theorem detectCrash_after_consecutive_high_witness :
    (tick (ticks (begin CrashDetector.new testConfig)
      [(highData 0 0 0, 0), (highData 0 0 100, 100)]) (highData 0 0 200) 200).1 > NO_CRASH ∧
    (tick (ticks (begin CrashDetector.new testConfig)
      [(highData 0 0 0, 0), (highData 0 0 100, 100), (highData 0 0 200, 200),
        (highData 0 0 300, 300)]) (highData 0 0 400) 400).1 > NO_CRASH := by
  constructor
  · apply detectCrash_after_consecutive_high testConfig _ _ _ (by decide) (by decide)
    · intro y hy
      simp only [List.map_cons, List.map_nil, List.cons_append, List.nil_append,
        List.mem_cons, List.mem_singleton, List.not_mem_nil, or_false] at hy
      rcases hy with rfl | rfl | rfl <;> exact accel_gt_highData _ _ _
    · decide
  · apply detectCrash_after_consecutive_high testConfig _ _ _ (by decide) (by decide)
    · intro y hy
      simp only [List.map_cons, List.map_nil, List.cons_append, List.nil_append,
        List.mem_cons, List.mem_singleton, List.not_mem_nil, or_false] at hy
      rcases hy with rfl | rfl | rfl | rfl | rfl <;> exact accel_gt_highData _ _ _
    · decide

/-- C18 (amended): after a `detectCrash` call from an unarmed state whose stored
severity is None (as after `begin` or `resetCrashDetection`), `getCrashSeverity`
equals the severity the call returned; after a call from an armed state
`getCrashSeverity` is still the severity stored when the alarm was raised,
whatever the call returned. -/
theorem getCrashSeverity_after_detectCrash (d : CrashDetector) (s : SensorData) (now : Nat) :
    (isCrashDetected d = false → getCrashSeverity d = NO_CRASH →
      getCrashSeverity (detectCrash d s now).2 = (detectCrash d s now).1) ∧
    (isCrashDetected d = true →
      getCrashSeverity (detectCrash d s now).2 = getCrashSeverity d) := by
  constructor
  · intro hu hnone
    rw [detectCrash_fst, detectCrash_snd]
    by_cases hpos : severityOfScore (calculateCrashScore d s) > NO_CRASH
    · rw [if_pos ⟨hpos, hu⟩]
      rfl
    · rw [if_neg (fun h => hpos h.1), severityOfScore_eq_none _ hpos]
      exact hnone
  · intro ha
    rw [detectCrash_of_armed d s now ha]

theorem getCrashSeverity_after_detectCrash_witness :
    getCrashSeverity (detectCrash fresh (axisSample 0 0 25 HIGH) 10).2
      = (detectCrash fresh (axisSample 0 0 25 HIGH) 10).1 ∧
    getCrashSeverity
      (detectCrash (detectCrash fresh (axisSample 0 0 25 HIGH) 10).2 (severeData 0 0 0) 99).2
      = getCrashSeverity (detectCrash fresh (axisSample 0 0 25 HIGH) 10).2 := by
  have hst := detectCrash_of_unarmed fresh (axisSample 0 0 25 HIGH) 10 rfl
    (by rw [score_fresh_axis_3])
  have harmed : isCrashDetected (detectCrash fresh (axisSample 0 0 25 HIGH) 10).2 = true := by
    rw [hst]
    rfl
  exact ⟨(getCrashSeverity_after_detectCrash fresh (axisSample 0 0 25 HIGH) 10).1 rfl rfl,
    (getCrashSeverity_after_detectCrash _ (severeData 0 0 0) 99).2 harmed⟩

theorem getCrashSeverity_latched_counterexample :
    (detectCrash (detectCrash fresh (axisSample 0 0 25 HIGH) 10).2 (severeData 0 0 0) 99).1
      = SEVERE_CRASH ∧
    getCrashSeverity
      (detectCrash (detectCrash fresh (axisSample 0 0 25 HIGH) 10).2 (severeData 0 0 0) 99).2
      = MINOR_CRASH ∧
    ¬ ∀ (d : CrashDetector) (s : SensorData) (now : Nat),
      getCrashSeverity (detectCrash d s now).2 = (detectCrash d s now).1 := by
  have hst := detectCrash_of_unarmed fresh (axisSample 0 0 25 HIGH) 10 rfl
    (by rw [score_fresh_axis_3])
  rw [score_fresh_axis_3] at hst
  have harmed : (detectCrash fresh (axisSample 0 0 25 HIGH) 10).2.crashDetected = true := by
    rw [hst]
  have hret : (detectCrash (detectCrash fresh (axisSample 0 0 25 HIGH) 10).2
      (severeData 0 0 0) 99).1 = SEVERE_CRASH := by
    rw [detectCrash_fst, calculateCrashScore_congr fresh _ (by rw [hst]) (by rw [hst])
      (by rw [hst]) (by rw [hst]), score_fresh_severeData]
    decide
  have hstored : getCrashSeverity (detectCrash (detectCrash fresh (axisSample 0 0 25 HIGH) 10).2
      (severeData 0 0 0) 99).2 = MINOR_CRASH := by
    rw [detectCrash_of_armed _ _ _ harmed, hst]
    rfl
  refine ⟨hret, hstored, ?_⟩
  intro hall
  have h := hall (detectCrash fresh (axisSample 0 0 25 HIGH) 10).2 (severeData 0 0 0) 99
  rw [hret, hstored] at h
  exact absurd h (by decide)

/-- C19: the severity `detectCrash` returns is the one computed from the score and
does not depend on the alarm fields: two states with the same configuration,
buffer (contents and capacity) and write cursor return the same severity for every
sample, whatever their armed flag, stored severity, raise timestamp and the clock
value of the call. -/
theorem detectCrash_severity_independent_of_alarm (d e : CrashDetector) (s : SensorData)
    (now now2 : Nat) (hc : e.config = d.config) (hh : e.sensorHistory = d.sensorHistory)
    (hs : e.historySize = d.historySize) (hi : e.currentIndex = d.currentIndex) :
    (detectCrash e s now2).1 = (detectCrash d s now).1 ∧
    (detectCrash e s now2).1 = severityOfScore (calculateCrashScore d s) := by
  rw [detectCrash_fst, detectCrash_fst, calculateCrashScore_congr d e hc hh hs hi]
  exact ⟨rfl, rfl⟩

theorem detectCrash_severity_independent_of_alarm_witness :
    (detectCrash
      { fresh with crashDetected := true, crashDetectionTime := 7, currentSeverity := MINOR_CRASH }
      (severeData 0 0 0) 99).1 = (detectCrash fresh (severeData 0 0 0) 5).1 ∧
    (detectCrash fresh (severeData 0 0 0) 5).1 = SEVERE_CRASH := by
  have h := detectCrash_severity_independent_of_alarm fresh
    { fresh with crashDetected := true, crashDetectionTime := 7, currentSeverity := MINOR_CRASH }
    (severeData 0 0 0) 5 99 rfl rfl rfl rfl
  refine ⟨h.1, ?_⟩
  rw [detectCrash_fst, score_fresh_severeData]
  decide

/-- C20: after `begin` and the appends s_1..s_n the write cursor is n mod 10 (so
in 0..9), the buffer has 10 slots, and for every i < 10 the slot at index
(cursor − 1 − i) mod 10 holds s_(n−i) when i < n and the zero sample otherwise;
a further append writes its sample at the cursor and changes no other slot (the
cursor slot is the case i = 9, the oldest). -/
theorem ring_buffer_after_appends (cfg : CrashDetectionConfig) (l : List SensorData) :
    getHistoryIndex (appendAll (begin CrashDetector.new cfg) l) = ((l.length % 10 : Nat) : Int) ∧
    0 ≤ getHistoryIndex (appendAll (begin CrashDetector.new cfg) l) ∧
    getHistoryIndex (appendAll (begin CrashDetector.new cfg) l) < 10 ∧
    (getHistory (appendAll (begin CrashDetector.new cfg) l)).length = 10 ∧
    (∀ i : Nat, i < 10 →
      (getHistory (appendAll (begin CrashDetector.new cfg) l))[
        ((getHistoryIndex (appendAll (begin CrashDetector.new cfg) l) - 1 - (i : Int)) % 10).toNat]?
        = some (if h : i < l.length then l[l.length - 1 - i] else SensorData.zero)) ∧
    (∀ s : SensorData,
      (getHistory (addToHistory (appendAll (begin CrashDetector.new cfg) l) s))[
        (getHistoryIndex (appendAll (begin CrashDetector.new cfg) l)).toNat]? = some s ∧
      ∀ j : Nat, j ≠ (getHistoryIndex (appendAll (begin CrashDetector.new cfg) l)).toNat →
        (getHistory (addToHistory (appendAll (begin CrashDetector.new cfg) l) s))[j]?
          = (getHistory (appendAll (begin CrashDetector.new cfg) l))[j]?) := by
  obtain ⟨_, _, hci, hlen, _, _, _, hslots⟩ := appendAll_begin CrashDetector.new rfl cfg l
  unfold getHistoryIndex getHistory
  refine ⟨hci, by rw [hci]; omega, by rw [hci]; omega, hlen, ?_, ?_⟩
  · intro i hi
    rw [hci]
    have e : ((((l.length % 10 : Nat) : Int) - 1 - (i : Int)) % 10).toNat
        = (l.length + 9 - i) % 10 := by omega
    rw [e, hslots i hi, reverse_getD_eq]
  · intro s
    have hidx : (appendAll (begin CrashDetector.new cfg) l).currentIndex.toNat < 10 := by
      rw [hci]
      omega
    constructor
    · show ((appendAll (begin CrashDetector.new cfg) l).sensorHistory.set _ s)[_]? = _
      rw [List.getElem?_set_eq_of_lt]
      rw [hlen]
      exact hidx
    · intro j hj
      show ((appendAll (begin CrashDetector.new cfg) l).sensorHistory.set _ s)[_]? = _
      rw [List.getElem?_set_ne (Ne.symm hj)]

/-- C21: `updateConfig(c)` followed by `getConfig()` returns `c` as a whole, and
`updateConfig` leaves the buffer, its capacity, the write cursor, the armed flag,
the stored severity and the raise timestamp unchanged; e.g. replacing the test
configuration by one with `accelThreshold` 5.0 reads back 5.0. -/
theorem updateConfig_getConfig (d : CrashDetector) (c : CrashDetectionConfig) :
    getConfig (updateConfig d c) = c ∧
    getHistory (updateConfig d c) = getHistory d ∧
    (updateConfig d c).historySize = d.historySize ∧
    getHistoryIndex (updateConfig d c) = getHistoryIndex d ∧
    isCrashDetected (updateConfig d c) = isCrashDetected d ∧
    getCrashSeverity (updateConfig d c) = getCrashSeverity d ∧
    (updateConfig d c).crashDetectionTime = d.crashDetectionTime ∧
    (getConfig (updateConfig (begin CrashDetector.new testConfig)
      { testConfig with accelThreshold := 5 })).accelThreshold = 5 ∧
    (getConfig (updateConfig (begin CrashDetector.new testConfig)
      { testConfig with accelThreshold := 5 })).gyroThreshold = testConfig.gyroThreshold :=
  ⟨rfl, rfl, rfl, rfl, rfl, rfl, rfl, rfl, rfl⟩

/-- C22: whenever `detectCrash` returns a severity above None, `isCrashDetected`
is true right after the call; hence the condition
`detectedSeverity > NO_CRASH && !crashDetector.isCrashDetected()` of the main loop
is false after every `addToHistory`/`detectCrash` pair and the emergency-alert
branch is never taken. -/
theorem detectCrash_positive_implies_armed (d : CrashDetector) (s : SensorData) (now : Nat) :
    ((detectCrash d s now).1 > NO_CRASH → isCrashDetected (detectCrash d s now).2 = true) ∧
    (decide ((detectCrash d s now).1 > NO_CRASH) && !(isCrashDetected (detectCrash d s now).2))
      = false ∧
    loopAlertCondition d s now = false := by
  have key : ∀ e : CrashDetector, (detectCrash e s now).1 > NO_CRASH →
      isCrashDetected (detectCrash e s now).2 = true := by
    intro e hpos
    cases ha : e.crashDetected with
    | true =>
      rw [detectCrash_of_armed e s now ha]
      exact ha
    | false =>
      rw [detectCrash_fst, severityOfScore_pos_iff] at hpos
      rw [detectCrash_of_unarmed e s now ha hpos]
      rfl
  have cond : ∀ e : CrashDetector,
      (decide ((detectCrash e s now).1 > NO_CRASH) && !(isCrashDetected (detectCrash e s now).2))
        = false := by
    intro e
    by_cases hpos : (detectCrash e s now).1 > NO_CRASH
    · rw [key e hpos]
      simp
    · simp [hpos]
  exact ⟨key d, cond d, cond (addToHistory d s)⟩

/-- C23 (amended): in every state reached after `begin`, when `addToHistory(s)` is
immediately followed by `detectCrash(s)`, the slot before the write cursor is `s`
itself, so `calculateJerk` returns 0; the jerk factor adds 0 when the cursor has
wrapped to 0 (the factor is skipped) and whenever `jerkThreshold` is not negative,
and the score is then the sum of the other five factors. -/
theorem jerkFactor_append_then_detect (cfg0 : CrashDetectionConfig) (d : CrashDetector)
    (s : SensorData) (h : Reachable (begin CrashDetector.new cfg0) d) :
    jerkPrevious (addToHistory d s) = s ∧
    calculateJerk s (jerkPrevious (addToHistory d s)) = Root.zero ∧
    ((addToHistory d s).currentIndex = 0 → jerkFactor (addToHistory d s) s = 0) ∧
    (0 ≤ d.config.jerkThreshold →
      jerkFactor (addToHistory d s) s = 0 ∧
      calculateCrashScore (addToHistory d s) s =
        accelFactor d.config s + gyroFactor d.config s + vibrationFactor s
          + proximityFactor d.config s + consecutiveFactor (addToHistory d s)) := by
  have hready := bufferReady_reachable _ d (bufferReady_begin CrashDetector.new cfg0 rfl) h
  have hprev := jerkPrevious_addToHistory d s hready
  have hzero : calculateJerk s (jerkPrevious (addToHistory d s)) = Root.zero := by
    rw [hprev]
    exact calculateJerk_same_ts s s rfl
  refine ⟨hprev, hzero, ?_, ?_⟩
  · intro hci
    rw [jerkFactor_eq, hci]
    rfl
  · intro hthr
    have hj : jerkFactor (addToHistory d s) s = 0 := by
      have hcfg : (addToHistory d s).config.jerkThreshold = d.config.jerkThreshold := rfl
      rw [jerkFactor_eq, hzero, hcfg, Root.zero_gt _ hthr]
      simp
    refine ⟨hj, ?_⟩
    have hcfg : (addToHistory d s).config = d.config := rfl
    rw [calculateCrashScore_eq_factors, hj, hcfg]
    ring

theorem jerkFactor_append_then_detect_witness :
    jerkPrevious (addToHistory fresh (severeData 0 0 0)) = severeData 0 0 0 ∧
    jerkFactor (addToHistory fresh (severeData 0 0 0)) (severeData 0 0 0) = 0 := by
  have h := jerkFactor_append_then_detect {} fresh (severeData 0 0 0) Reachable.start
  exact ⟨h.1, (h.2.2.2 (by norm_num [fresh, begin])).1⟩

theorem jerkFactor_append_then_detect_counterexample :
    Reachable (begin CrashDetector.new { jerkThreshold := -1 })
      (begin CrashDetector.new { jerkThreshold := -1 }) ∧
    jerkFactor (addToHistory (begin CrashDetector.new { jerkThreshold := -1 }) SensorData.zero)
      SensorData.zero = 2 ∧
    ¬ ∀ (cfg : CrashDetectionConfig) (d : CrashDetector) (s : SensorData),
      Reachable (begin CrashDetector.new cfg) d → jerkFactor (addToHistory d s) s = 0 := by
  refine ⟨Reachable.start, jerkFactor_negative_threshold, ?_⟩
  intro hall
  have h := hall { jerkThreshold := -1 } _ SensorData.zero Reachable.start
  rw [jerkFactor_negative_threshold] at h
  exact absurd h (by decide)

/-- C24: in every state reached from the constructor or from `begin` by any
sequence of `begin`, `addToHistory`, `detectCrash`, `resetCrashDetection`,
`updateConfig` and `shouldAutoReset` calls, the alarm is armed exactly when the
stored severity is Minor, Moderate or Severe, unarmed exactly when it is None, and
the raise timestamp is 0 whenever the alarm is unarmed. -/
theorem alarm_fields_consistent (d0 : CrashDetector) (cfg : CrashDetectionConfig)
    (d : CrashDetector) (h : Reachable CrashDetector.new d ∨ Reachable (begin d0 cfg) d) :
    (isCrashDetected d = true ↔
      getCrashSeverity d = MINOR_CRASH ∨ getCrashSeverity d = MODERATE_CRASH ∨
        getCrashSeverity d = SEVERE_CRASH) ∧
    (isCrashDetected d = false ↔ getCrashSeverity d = NO_CRASH) ∧
    (isCrashDetected d = false → d.crashDetectionTime = 0) := by
  rcases h with h | h
  · exact alarmConsistent_reachable _ d (alarmConsistent_cleared _ rfl rfl rfl) h
  · exact alarmConsistent_reachable _ d (alarmConsistent_cleared _ rfl rfl rfl) h

theorem alarm_fields_consistent_witness :
    (isCrashDetected (detectCrash fresh (severeData 0 0 0) 5).2 = true ↔
      getCrashSeverity (detectCrash fresh (severeData 0 0 0) 5).2 = MINOR_CRASH ∨
        getCrashSeverity (detectCrash fresh (severeData 0 0 0) 5).2 = MODERATE_CRASH ∨
        getCrashSeverity (detectCrash fresh (severeData 0 0 0) 5).2 = SEVERE_CRASH) ∧
    (isCrashDetected (detectCrash fresh (severeData 0 0 0) 5).2 = false ↔
      getCrashSeverity (detectCrash fresh (severeData 0 0 0) 5).2 = NO_CRASH) ∧
    (isCrashDetected (detectCrash fresh (severeData 0 0 0) 5).2 = false →
      (detectCrash fresh (severeData 0 0 0) 5).2.crashDetectionTime = 0) :=
  alarm_fields_consistent CrashDetector.new {} _
    (Or.inl (Reachable.afterDetectCrash _ _ _ (Reachable.afterBegin _ _ Reachable.start)))

/-- C25: with a buffer of capacity 10, a `consecutiveReadings` above 10 makes the
run length at most 10 and factor 6 add 0 for every buffer content, and a
`consecutiveReadings` of 0 or less makes the run length 0 and factor 6 add 2 to
the score of every sample, whatever the buffer holds. -/
theorem consecutiveFactor_out_of_range (d : CrashDetector) (s : SensorData)
    (hs : d.historySize = 10) :
    (10 < d.config.consecutiveReadings →
      0 ≤ calculateConsecutiveHighReadings d ∧ calculateConsecutiveHighReadings d ≤ 10 ∧
      consecutiveFactor d = 0 ∧
      calculateCrashScore d s = accelFactor d.config s + gyroFactor d.config s
        + jerkFactor d s + vibrationFactor s + proximityFactor d.config s + 0) ∧
    (d.config.consecutiveReadings ≤ 0 →
      calculateConsecutiveHighReadings d = 0 ∧
      consecutiveFactor d = 2 ∧
      calculateCrashScore d s = accelFactor d.config s + gyroFactor d.config s
        + jerkFactor d s + vibrationFactor s + proximityFactor d.config s + 2) := by
  constructor
  · intro hk
    have hrun : 0 ≤ calculateConsecutiveHighReadings d ∧
        calculateConsecutiveHighReadings d ≤ 10 := by
      unfold calculateConsecutiveHighReadings
      simp only
      rw [hs, min_eq_right (by omega)]
      have hb := consecutiveLoop_bounds d (10 : Int).toNat 0 0
      have e : (((10 : Int).toNat : Nat) : Int) = 10 := rfl
      rw [e] at hb
      constructor <;> omega
    have hfac : consecutiveFactor d = 0 := by
      unfold consecutiveFactor
      rw [if_neg (by omega)]
    refine ⟨hrun.1, hrun.2, hfac, ?_⟩
    rw [calculateCrashScore_eq_factors, hfac]
  · intro hk
    have hrun : calculateConsecutiveHighReadings d = 0 := by
      unfold calculateConsecutiveHighReadings
      simp only
      rw [hs, min_eq_left (by omega)]
      have e : d.config.consecutiveReadings.toNat = 0 := by omega
      rw [e]
      rfl
    have hfac : consecutiveFactor d = 2 := by
      unfold consecutiveFactor
      rw [hrun, if_pos (by omega)]
    refine ⟨hrun, hfac, ?_⟩
    rw [calculateCrashScore_eq_factors, hfac]

theorem consecutiveFactor_out_of_range_witness :
    calculateConsecutiveHighReadings
      (appendAll (begin CrashDetector.new { consecutiveReadings := 11 })
        (List.replicate 10 (highData 0 0 0))) = 10 ∧
    consecutiveFactor
      (appendAll (begin CrashDetector.new { consecutiveReadings := 11 })
        (List.replicate 10 (highData 0 0 0))) = 0 ∧
    calculateConsecutiveHighReadings (begin CrashDetector.new { consecutiveReadings := 0 }) = 0 ∧
    consecutiveFactor (begin CrashDetector.new { consecutiveReadings := 0 }) = 2 := by
  obtain ⟨hcfg, hs, hci, _⟩ := appendAll_begin CrashDetector.new rfl
    { consecutiveReadings := 11 } (List.replicate 10 (highData 0 0 0))
  have h1 := (consecutiveFactor_out_of_range _ SensorData.zero hs).1
    (by rw [hcfg]; decide)
  have h2 := (consecutiveFactor_out_of_range
    (begin CrashDetector.new { consecutiveReadings := 0 }) SensorData.zero rfl).2
    (by decide)
  refine ⟨?_, h1.2.2.1, h2.1, h2.2.1⟩
  unfold calculateConsecutiveHighReadings
  simp only
  rw [hs, hcfg]
  have hrun := consecutiveLoop_run
    (appendAll (begin CrashDetector.new { consecutiveReadings := 11 })
      (List.replicate 10 (highData 0 0 0))) hs (by rw [hci]; omega) 10 0 (by decide) 0
    (by
      intro j _ hj
      rw [recent_appendAll CrashDetector.new rfl _ _ j (by omega), hcfg]
      have hmem := reverse_getD_mem [] (List.replicate 10 (highData 0 0 0)) j
        (by rw [List.length_replicate]; omega)
      rw [List.nil_append] at hmem
      rw [List.eq_of_mem_replicate hmem]
      norm_num [highReading, calculateMagnitude, Root.gt, highData])
  rw [Nat.cast_zero] at hrun
  exact hrun

end CrashDetection
